import Mathlib

/-!
# fqd bootstrap (`src/fqd.c`): a shallow embedding

The program is modelled as a function from an environment (the results that
the C library and the broker's collaborators hand back) and an argument
vector to the trace of calls one process makes, together with the way that
process ends.

Conventions.
* A `uint32_t` is a `Nat` below `2 ^ 32`; the bytes it occupies in memory
  depend on the byte order of the host, which is a field of the environment.
* `exit (-1)` ends the process with status `255`.
* Library routines absent from the source (`getopt`, `atoi`, `inet_pton`)
  are modelled after the GNU C library on a machine with 64-bit `long`;
  `getopt` permutes the argument vector unless the environment asks for
  POSIX scanning.
* Every collaborator called before `fqd_listener` is taken to return to
  its caller.
-/

namespace Fqd

/-! ## Machine integers and byte order -/

/-- Conversion of a mathematical integer to a C `int` (32 bits, wrapping). -/
def to_int (z : Int) : Int := (z + 2147483648) % 4294967296 - 2147483648

/-- Conversion of a C `int` to `unsigned short` (16 bits, modular). -/
def to_ushort (z : Int) : Nat := (z % 65536).toNat

/-- Process status seen by the parent for `exit (code)`. -/
def exit_status (code : Int) : Nat := (code % 256).toNat

/-- Reverse the four bytes of a 32-bit value. -/
def bswap32 (x : Nat) : Nat :=
  (x % 256) * 16777216 + (x / 256 % 256) * 65536 + (x / 65536 % 256) * 256 + (x / 16777216 % 256)

/-- `htonl`: host to network byte order; the identity on a big-endian host. -/
def htonl (littleEndian : Bool) (x : Nat) : Nat :=
  if littleEndian then bswap32 (x % 4294967296) else x % 4294967296

/-- The `uint32_t` read from four bytes laid out in memory order
(what `memcpy (&ip, bytes, 4)` leaves in `ip`). -/
def load32 (littleEndian : Bool) (bytes : List Nat) : Nat :=
  let b0 := bytes.getD 0 0 % 256
  let b1 := bytes.getD 1 0 % 256
  let b2 := bytes.getD 2 0 % 256
  let b3 := bytes.getD 3 0 % 256
  if littleEndian then b0 + b1 * 256 + b2 * 65536 + b3 * 16777216
  else b0 * 16777216 + b1 * 65536 + b2 * 256 + b3

/-- The four bytes a `uint32_t` occupies, in memory order. -/
def store32 (littleEndian : Bool) (x : Nat) : List Nat :=
  if littleEndian then [x % 256, x / 256 % 256, x / 65536 % 256, x / 16777216 % 256]
  else [x / 16777216 % 256, x / 65536 % 256, x / 256 % 256, x % 256]

/-! ## C library routines -/

/-- C `isdigit`. -/
def isdigit (c : Char) : Bool := decide ('0' ≤ c) && decide (c ≤ '9')

/-- C `isspace` in the "C" locale. -/
def isspace (c : Char) : Bool :=
  c.toNat = 32 || (decide (9 ≤ c.toNat) && decide (c.toNat ≤ 13))

/-- The digit loop of `atoi`: accumulate leading decimal digits. -/
def atoi_digits : List Char → Nat → Nat
  | [], acc => acc
  | c :: cs, acc => if isdigit c then atoi_digits cs (acc * 10 + (c.toNat - 48)) else acc

/-- Saturation of `strtol`: a value outside the range of a 64-bit `long` is
replaced by `LONG_MAX` or `LONG_MIN`. -/
def strtol_clamp (z : Int) : Int :=
  if z > 9223372036854775807 then 9223372036854775807
  else if z < -9223372036854775808 then -9223372036854775808
  else z

/-- C `atoi`, which is `(int) strtol (s, NULL, 10)`: skip white space, take an
optional sign, read leading decimal digits, ignore the rest; text without
digits gives `0`. The value saturates to the range of `long` and is then
converted to `int`. -/
def atoi (s : String) : Int :=
  let cs := s.data.dropWhile isspace
  if cs.head? = some '-' then to_int (strtol_clamp (-(atoi_digits cs.tail 0 : Int)))
  else if cs.head? = some '+' then to_int (strtol_clamp (atoi_digits cs.tail 0 : Int))
  else to_int (strtol_clamp (atoi_digits cs 0 : Int))

/-- The scanning loop of `inet_pton (AF_INET, ...)`: `done` holds the octets
already closed by a dot, `cur` the octet being read, `saw_digit` whether it
has a digit yet, `octets` the number of octets started. -/
def inet_pton4_loop : List Char → List Nat → Nat → Bool → Nat → Option (List Nat)
  | [], done, cur, _, octets => if octets < 4 then none else some (done ++ [cur])
  | ch :: src, done, cur, saw_digit, octets =>
    if isdigit ch then
      if saw_digit && decide (cur = 0) then none
      else if cur * 10 + (ch.toNat - 48) > 255 then none
      else if saw_digit then inet_pton4_loop src done (cur * 10 + (ch.toNat - 48)) true octets
      else if octets + 1 > 4 then none
      else inet_pton4_loop src done (cur * 10 + (ch.toNat - 48)) true (octets + 1)
    else if ch = '.' && saw_digit then
      if octets = 4 then none
      else inet_pton4_loop src (done ++ [cur]) 0 false octets
    else none

/-- Library `inet_pton (AF_INET, src, dst)`: `some bytes` when it returns `1`
and stores the four bytes at `dst`; `none` when it returns `0` and leaves
`dst` alone. -/
def inet_pton4 (src : String) : Option (List Nat) :=
  inet_pton4_loop src.data [] 0 false 0

/-- The option string handed to `getopt` by `parse_cli`. -/
def optstring : List Char := "Bbl:m:hDt:n:p:q:c:w:v:".data

/-- Look an option character up in an option string: `none` when it is not
an option, `some true` when it takes an argument, `some false` otherwise. -/
def optLookup (c : Char) : List Char → Option Bool
  | [] => none
  | o :: rest =>
    if o = c && c != ':' then
      (match rest with
       | ':' :: _ => some true
       | _ => some false)
    else optLookup c rest

/-- Successive results `(c, optarg)` of `getopt` for the option characters
`cs` left in the current word. `next` is the following word, `k0` the results
from the following word on, `k1` the results from the word after it on.
An unknown character or a missing argument gives `?`. -/
def getopt_word : List Char → Option String → List (Char × String) → List (Char × String) →
    List (Char × String)
  | [], _, k0, _ => k0
  | c :: cs, next, k0, k1 =>
    match optLookup c optstring with
    | none => ('?', "") :: getopt_word cs next k0 k1
    | some false => (c, "") :: getopt_word cs next k0 k1
    | some true =>
      if cs ≠ [] then (c, String.mk cs) :: k0
      else
        match next with
        | some a => (c, a) :: k1
        | none => [('?', "")]

/-- Results of `getopt` on one word. The word `--` ends option processing. A
word that is not an option (it does not start with `-`, or it is `-` alone)
ends option processing under POSIX scanning, and is stepped over otherwise:
the library moves it behind the options and goes on with the next word. -/
def getopt_arg (posixly_correct : Bool) (a : String) (next : Option String)
    (k0 k1 : List (Char × String)) : List (Char × String) :=
  match a.data with
  | '-' :: c :: cs => if c = '-' ∧ cs = [] then [] else getopt_word (c :: cs) next k0 k1
  | _ => if posixly_correct then [] else k0

/-- Results of the successive `getopt` calls over the words after `argv[0]`,
up to the call that returns `EOF`. -/
def getopt_args (posixly_correct : Bool) : List String → List (Char × String)
  | [] => []
  | [a] => getopt_arg posixly_correct a none [] []
  | a :: b :: rest =>
    getopt_arg posixly_correct a (some b) (getopt_args posixly_correct (b :: rest))
      (getopt_args posixly_correct rest)

/-- Results of the successive `getopt (argc, argv, optstring)` calls;
`posixly_correct` tells whether the library scans in POSIX order (the
variable `POSIXLY_CORRECT` is set) instead of permuting. -/
def getopt_stream (posixly_correct : Bool) (argv : List String) : List (Char × String) :=
  getopt_args posixly_correct argv.tail

/-! ## Observable calls and the environment -/

/-- Access mode given to `open`. -/
inductive OFlag where
  | O_RDONLY
  | O_WRONLY
  deriving DecidableEq, Repr

/-- The calls one process makes that are visible outside `fqd.c`, in the
order it makes them. What a library routine writes on its own account (the
diagnostic of `getopt` for an unknown flag) is not part of it. -/
inductive Event where
  /-- A `printf`: text written to standard output. -/
  | printf (text : String)
  /-- A `fprintf (stderr, ...)`: text written to standard error. -/
  | fprintf_stderr (text : String)
  /-- The call `fqd_route_load_module (libexecdir, file, ext)`; `failed` records
  what the loader had to report, which the call site does not look at. -/
  | fqd_route_load_module (libexecdir : Option String) (file ext : String) (failed : Bool)
  | fqd_http_set_root (dir : String)
  | fq_debug_set_string (flags : String)
  | global_functions_init (libexecdir : Option String)
  /-- The call `signal (SIGPIPE, SIG_IGN)`. -/
  | signal_SIGPIPE_SIG_IGN
  | open_ (path : String) (flag : OFlag)
  | dup2 (fd newfd : Int)
  | close (fd : Int)
  | fork
  | setsid
  | bcd_config_init
  | bcd_init
  | bcd_attach
  | bcd_kv (key value : String)
  | sigaction (signum : Nat)
  | fqd_config_init (nodeid : Nat) (config_path queue_path : Option String)
  | fqd_start_worker_threads (count : Int)
  /-- The call `fqd_listener (NULL, port)`. -/
  | fqd_listener (port : Nat)
  | fqd_stop_worker_threads
  deriving DecidableEq, Repr

/-- The record `gethostbyname` returns: address family, address length and
the bytes of the first address. -/
structure hostent where
  h_addrtype : Int
  h_length : Int
  h_addr : List Nat
  deriving DecidableEq, Repr

/-- Everything the process receives from outside: build-time constants, the
process environment and the results of library and collaborator calls. -/
structure Env where
  /-- Byte order of the host. -/
  littleEndian : Bool
  /-- Whether the program is built with `NO_BCD` defined. -/
  NO_BCD : Bool
  /-- Build-time constant `LIBEXECDIR`. -/
  LIBEXECDIR : String
  /-- Build-time constant `FQ_VERSION`. -/
  FQ_VERSION : String
  /-- Result of `getenv ("FQ_DEBUG")`. -/
  FQ_DEBUG : Option String
  /-- Whether `POSIXLY_CORRECT` is set, which makes `getopt` stop at the first
  word that is not an option. -/
  POSIXLY_CORRECT : Bool
  /-- Result of `gethostbyname` on the local host name. -/
  gethostbyname : Option hostent
  /-- Whether the module loader fails for a directory and a module name. -/
  load_module_fails : Option String → String → Bool
  /-- Result of `open ("/dev/null", O_RDONLY)`. -/
  open_rd : Int
  /-- Result of `dup2 (fd, STDIN_FILENO)`. -/
  dup2_stdin : Int
  /-- Result of `open ("/dev/null", O_WRONLY)`. -/
  open_wr : Int
  /-- Result of `dup2 (fd, STDOUT_FILENO)`. -/
  dup2_stdout : Int
  /-- Result of `dup2 (fd, STDERR_FILENO)`. -/
  dup2_stderr : Int
  /-- Result of the first `fork` in this process. -/
  fork1 : Int
  /-- Result of the second `fork` in this process. -/
  fork2 : Int
  /-- Text of `strerror (errno)` when `die` runs. -/
  strerror : String
  bcd_config_init : Int
  bcd_init : Int
  bcd_attach : Int
  /-- Result of `bcd_kv` for the key `application`. -/
  bcd_kv_application : Int
  /-- Result of `bcd_kv` for the key `version`. -/
  bcd_kv_version : Int
  /-- Text of `bcd_error_message (&error)`. -/
  bcd_error_message : String
  /-- Result of the `i`-th `sigaction` call of `bcd_setup_sigaction`. -/
  sigaction : Nat → Int
  /-- Whether `fqd_listener` ever returns. -/
  listener_returns : Bool

/-- The file-scope variables of `fqd.c` that the bootstrap reads and writes. -/
structure Globals where
  nodeid : Nat
  port : Nat
  foreground : Int
  usebcd : Bool
  worker_threads : Int
  config_path : Option String
  queue_path : Option String
  libexecdir : Option String
  deriving DecidableEq, Repr

/-- The initial values of the file-scope variables. -/
def Globals.init : Globals :=
  { nodeid := 0, port := 8765, foreground := 0, usebcd := false, worker_threads := 1,
    config_path := none, queue_path := none, libexecdir := none }

/-- Result of running a piece of the program: it returns to its caller with a
value, or it calls `exit`; either way with the calls made so far. -/
inductive Step (α : Type) where
  | ret (trace : List Event) (val : α)
  | exit (trace : List Event) (code : Int)

/-- Put earlier calls in front of a result. -/
def Step.after {α : Type} (evs : List Event) : Step α → Step α
  | .ret tr v => .ret (evs ++ tr) v
  | .exit tr code => .exit (evs ++ tr) code

/-- The calls made by a result. -/
def Step.trace {α : Type} : Step α → List Event
  | .ret tr _ => tr
  | .exit tr _ => tr

/-- How a process ends: with an exit status, or never, inside `fqd_listener`. -/
inductive Status where
  | exited (status : Nat)
  | blocked
  deriving DecidableEq, Repr

/-- One run of the program: the calls made and how it ends. -/
structure Run where
  trace : List Event
  status : Status
  deriving DecidableEq, Repr

/-! ## The program -/

/-- Address family constant `AF_INET`. -/
def AF_INET : Int := 2

/-- The macro `die (str)`: report on standard error, then `exit (-1)`. -/
def die {α : Type} (env : Env) (pre : List Event) (str : String) : Step α :=
  .exit (pre ++ [.fprintf_stderr (str ++ ": " ++ env.strerror ++ "\n")]) (-1)

/-- The function `usage`: thirteen `printf` calls. -/
def usage (prog : String) : List Event :=
  [ .printf (prog ++ ":\n"),
    .printf "\t-h\t\tthis help message\n",
    .printf "\t-D\t\trun in the foreground\n",
    .printf "\t-B\t\tenable BCD backtrace reporting\n",
    .printf "\t-t <count>\tnumber of worker threads to use (default 1)\n",
    .printf "\t-n <ip>\t\tnode self identifier (IPv4)\n",
    .printf "\t-p <port>\tspecify listening port (default: 8765)\n",
    .printf "\t-c <file>\tlocation of the configdb\n",
    .printf "\t-q <dir>\twhere persistent queues are stored\n",
    .printf "\t-w <dir>\twhere files for web services are available\n",
    .printf "\t-v <flags>\tprint additional debugging information, by overriding FQ_DEBUG (cf. fq.h)\n",
    .printf "\t-l <dir>\tuse this dir for relative module loads\n",
    .printf "\t-m <module>\tmodule to load\n" ]

/-- The body of the `switch` in `parse_cli` for one `getopt` result `c` with
argument `optarg`; `debug` is the local variable of `parse_cli`. -/
def parse_cli_case (env : Env) (prog : String) (c : Char) (optarg : String)
    (g : Globals) (debug : Option String) : Step (Globals × Option String) :=
  if c = 'B' then .ret [] ({ g with usebcd := true }, debug)
  else if c = 'b' then .ret [] ({ g with usebcd := false }, debug)
  else if c = 'l' then .ret [] ({ g with libexecdir := some optarg }, debug)
  else if c = 'm' then
    .ret [.fqd_route_load_module g.libexecdir optarg ".so"
            (env.load_module_fails g.libexecdir optarg)] (g, debug)
  else if c = 'q' then .ret [] ({ g with queue_path := some optarg }, debug)
  else if c = 'w' then .ret [.fqd_http_set_root optarg] (g, debug)
  else if c = 'c' then .ret [] ({ g with config_path := some optarg }, debug)
  else if c = 'D' then .ret [] ({ g with foreground := 1 }, debug)
  else if c = 't' then .ret [] ({ g with worker_threads := atoi optarg }, debug)
  else if c = 'h' then .exit (usage prog) 0
  else if c = 'n' then
    match inet_pton4 optarg with
    | none => .exit [.fprintf_stderr "Bad argument to -n, must be an IPv4 address.\n"] (-1)
    | some bytes =>
      let nodeid := load32 env.littleEndian bytes
      if nodeid = 0 ∨ nodeid = htonl env.littleEndian 0x7f000001 then
        .exit [.fprintf_stderr "nodeid cannot be INADDR_ANY or loopback\n"] (-1)
      else .ret [] ({ g with nodeid := nodeid }, debug)
  else if c = 'p' then .ret [] ({ g with port := to_ushort (atoi optarg) }, debug)
  else if c = 'v' then .ret [] (g, some optarg)
  else .exit (usage prog) (-1)

/-- The `while` loop of `parse_cli` over the successive `getopt` results. -/
def parse_cli_loop (env : Env) (prog : String) :
    List (Char × String) → Globals → Option String → Step (Globals × Option String)
  | [], g, debug => .ret [] (g, debug)
  | (c, optarg) :: rest, g, debug =>
    match parse_cli_case env prog c optarg g debug with
    | .exit tr code => .exit tr code
    | .ret tr (g1, debug1) => (parse_cli_loop env prog rest g1 debug1).after tr

/-- The function `parse_cli`, started with the variables as `g`. -/
def parse_cli (env : Env) (argv : List String) (g : Globals) : Step Globals :=
  match parse_cli_loop env (argv.headD "") (getopt_stream env.POSIXLY_CORRECT argv)
      { g with libexecdir := some env.LIBEXECDIR } env.FQ_DEBUG with
  | .exit tr code => .exit tr code
  | .ret tr (g1, debug) =>
    match debug with
    | some d => .ret (tr ++ [.fq_debug_set_string d]) g1
    | none => .ret tr g1

/-- The function `get_my_ip`. -/
def get_my_ip (env : Env) : Nat :=
  match env.gethostbyname with
  | some h =>
    if h.h_addrtype = AF_INET ∧ h.h_length = 4 then
      let ip := load32 env.littleEndian h.h_addr
      if ip = htonl env.littleEndian 0x7f000001 then 0 else ip
    else 0
  | none => 0

/-- The block of `main` run when `foreground` is zero. -/
def daemonize (env : Env) : Step Unit :=
  let t1 : List Event := [.open_ "/dev/null" .O_RDONLY]
  if env.open_rd < 0 then die env t1 "Failed to setup stdin"
  else
    let t2 := t1 ++ [.dup2 env.open_rd 0]
    if env.dup2_stdin < 0 then die env t2 "Failed to setup stdin"
    else
      let t3 := t2 ++ [.close env.open_rd, .open_ "/dev/null" .O_WRONLY]
      if env.open_wr < 0 then die env t3 "Failed to setup std\x7bout,err\x7d"
      else
        let t4 := t3 ++ [.dup2 env.open_wr 1]
        if env.dup2_stdout < 0 then die env t4 "Failed to setup std\x7bout,err\x7d"
        else
          let t5 := t4 ++ [.dup2 env.open_wr 2]
          if env.dup2_stderr < 0 then die env t5 "Failed to setup std\x7bout,err\x7d"
          else
            let t6 := t5 ++ [.close env.open_wr, .fork]
            if env.fork1 < 0 then die env t6 "Failed to fork"
            else if env.fork1 > 0 then .exit t6 0
            else
              let t7 := t6 ++ [.setsid, .fork]
              if env.fork2 < 0 then die env t7 "Failed to fork"
              else if env.fork2 > 0 then .exit t7 0
              else .ret t7 ()

/-- Signal numbers in the array of `bcd_setup_sigaction` (Linux values of
SIGSEGV, SIGFPE, SIGABRT, SIGBUS, SIGILL, SIGFPE). -/
def bcd_signals : List Nat := [11, 8, 6, 7, 4, 8]

/-- The loop of `bcd_setup_sigaction` from index `i` on. -/
def bcd_setup_sigaction_loop (env : Env) : Nat → List Nat → List Event
  | _, [] => []
  | i, s :: rest =>
    (if env.sigaction i = -1 then
      [Event.sigaction s, .fprintf_stderr ("warning: failed to set signal handler " ++ toString s ++ "\n")]
     else [Event.sigaction s]) ++ bcd_setup_sigaction_loop env (i + 1) rest

/-- The function `bcd_setup_sigaction`. -/
def bcd_setup_sigaction (env : Env) : List Event :=
  bcd_setup_sigaction_loop env 0 bcd_signals

/-- The label `fatal` of `main`. -/
def bcd_fatal {α : Type} (env : Env) (pre : List Event) : Step α :=
  .exit (pre ++ [.fprintf_stderr ("error: " ++ env.bcd_error_message ++ "\n")]) (-1)

/-- The crash-reporter block of `main`, compiled in unless `NO_BCD`. -/
def bcd_startup (env : Env) (g : Globals) : Step Unit :=
  if env.NO_BCD then .ret [] ()
  else if g.usebcd then
    let t1 : List Event := [.bcd_config_init]
    if env.bcd_config_init = -1 then bcd_fatal env t1
    else
      let t2 := t1 ++ [.bcd_init]
      if env.bcd_init = -1 then bcd_fatal env t2
      else
        let t3 := t2 ++ [.bcd_attach]
        if env.bcd_attach = -1 then bcd_fatal env t3
        else
          let t4 := t3 ++ [.bcd_kv "application" "fqd"]
          if env.bcd_kv_application = -1 then bcd_fatal env t4
          else
            let t5 := t4 ++ [.bcd_kv "version" env.FQ_VERSION]
            if env.bcd_kv_version = -1 then bcd_fatal env t5
            else .ret (t5 ++ bcd_setup_sigaction env) ()
  else .ret [] ()

/-- The function `listener_thread`: its calls, and whether it returns. -/
def listener_thread (env : Env) (g : Globals) : List Event × Bool :=
  let t : List Event :=
    [ .fqd_start_worker_threads g.worker_threads,
      .fprintf_stderr ("Listening on port: " ++ toString g.port ++ "\n"),
      .fqd_listener g.port ]
  if env.listener_returns then (t ++ [.fqd_stop_worker_threads], true) else (t, false)

/-- The part of `main` after `parse_cli` has returned with variables `g`. -/
def main_after_parse (env : Env) (g : Globals) : Run :=
  let t1 : List Event := [.global_functions_init g.libexecdir]
  if g.nodeid = 0 then
    ⟨t1 ++ [.fprintf_stderr "Could not determine host address, use -n <ip>\n"],
      .exited (exit_status (-1))⟩
  else
    let t2 := t1 ++ [.signal_SIGPIPE_SIG_IGN]
    match (if g.foreground = 0 then daemonize env else .ret [] ()) with
    | .exit td code => ⟨t2 ++ td, .exited (exit_status code)⟩
    | .ret td _ =>
      match bcd_startup env g with
      | .exit tb code => ⟨t2 ++ td ++ tb, .exited (exit_status code)⟩
      | .ret tb _ =>
        let t3 := t2 ++ td ++ tb ++
          [.fqd_config_init g.nodeid g.config_path g.queue_path] ++ (listener_thread env g).1
        if (listener_thread env g).2 then
          ⟨t3 ++ [.fprintf_stderr "Listener thread could not start. Exiting.\n"],
            .exited (exit_status 0)⟩
        else ⟨t3, .blocked⟩

/-- The values of the variables when `main` calls `parse_cli`: the
initializers, with `nodeid` assigned from `get_my_ip`. -/
def main_globals (env : Env) : Globals := { Globals.init with nodeid := get_my_ip env }

/-- The function `main`. -/
def main (env : Env) (argv : List String) : Run :=
  match parse_cli env argv (main_globals env) with
  | .exit tr code => ⟨tr, .exited (exit_status code)⟩
  | .ret tr g => ⟨tr ++ (main_after_parse env g).trace, (main_after_parse env g).status⟩

/-! ## Vocabulary for the statements -/

/-- Argument of the last occurrence of option `c` among `getopt` results. -/
def last_optarg (c : Char) : List (Char × String) → Option String
  | [] => none
  | (c1, a) :: rest =>
    match last_optarg c rest with
    | some x => some x
    | none => if c1 = c then some a else none

/-- Dotted-quad text of four octets. -/
def dotted_quad (a b c d : Nat) : String :=
  toString a ++ "." ++ toString b ++ "." ++ toString c ++ "." ++ toString d

/-- Calls into the downstream subsystems: configuration store, worker pool,
listener. -/
def Event.isDownstream : Event → Bool
  | .fqd_config_init _ _ _ => true
  | .fqd_start_worker_threads _ => true
  | .fqd_listener _ => true
  | .fqd_stop_worker_threads => true
  | _ => false

/-- Calls of the daemonization sequence named by the specification. -/
def Event.isDaemonCall : Event → Bool
  | .open_ _ _ => true
  | .dup2 _ _ => true
  | .fork => true
  | .setsid => true
  | _ => false

/-- Crash-reporter calls. -/
def Event.isCrashReporter : Event → Bool
  | .bcd_config_init => true
  | .bcd_init => true
  | .bcd_attach => true
  | .bcd_kv _ _ => true
  | .sigaction _ => true
  | _ => false

/-- Calls that `parse_cli` can make. -/
def Event.isParseCall : Event → Bool
  | .printf _ => true
  | .fprintf_stderr _ => true
  | .fqd_route_load_module _ _ _ _ => true
  | .fqd_http_set_root _ => true
  | .fq_debug_set_string _ => true
  | _ => false

/-- Every step that `main` takes after the identity check: the change of the
SIGPIPE disposition, daemonization, crash-reporter setup and the handoff. -/
def Event.isStartupStep (e : Event) : Bool :=
  e = .signal_SIGPIPE_SIG_IGN || e.isDaemonCall || (match e with | .close _ => true | _ => false)
    || e.isCrashReporter || e.isDownstream

/-- The daemonization calls in the order of the source, with the descriptors
the two `open` calls returned. -/
def daemon_seq (env : Env) : List Event :=
  [ .open_ "/dev/null" .O_RDONLY, .dup2 env.open_rd 0,
    .open_ "/dev/null" .O_WRONLY, .dup2 env.open_wr 1, .dup2 env.open_wr 2,
    .fork, .setsid, .fork ]

/-- The option characters with a `case` of their own in `parse_cli`. -/
def handled : List Char := ['B', 'b', 'l', 'm', 'q', 'w', 'c', 'D', 't', 'h', 'n', 'p', 'v']

/-- Option processing gets past the `getopt` results `pre` without exiting. -/
def option_processing_reaches (env : Env) (argv : List String) (pre : List (Char × String))
    (g : Globals) (d : Option String) : Prop :=
  ∃ t, parse_cli_loop env (argv.headD "") pre
    { main_globals env with libexecdir := some env.LIBEXECDIR } env.FQ_DEBUG = .ret t (g, d)

/-- Every call of the daemonization block, in the order of the source. -/
def daemon_steps (env : Env) : List Event :=
  [ .open_ "/dev/null" .O_RDONLY, .dup2 env.open_rd 0, .close env.open_rd,
    .open_ "/dev/null" .O_WRONLY, .dup2 env.open_wr 1, .dup2 env.open_wr 2, .close env.open_wr,
    .fork, .setsid, .fork ]

/-- What `die (str)` writes to standard error. -/
def die_message (env : Env) (str : String) : Event :=
  .fprintf_stderr (str ++ ": " ++ env.strerror ++ "\n")

/-- Both standard-descriptor redirections succeeded: the two `open` calls and
the three `dup2` calls. -/
def stdio_redirected (env : Env) : Prop :=
  0 ≤ env.open_rd ∧ 0 ≤ env.dup2_stdin ∧ 0 ≤ env.open_wr ∧ 0 ≤ env.dup2_stdout ∧
    0 ≤ env.dup2_stderr

/-- The calls of a run up to the daemonization block: those of `parse_cli`,
then `global_functions_init` and the change of the SIGPIPE disposition. -/
def startup_head (tr : List Event) (g : Globals) : List Event :=
  tr ++ [.global_functions_init g.libexecdir, .signal_SIGPIPE_SIG_IGN]

/-- A sample environment: little-endian host, crash reporter compiled in, no
usable host address, a loader that fails for every module, every system call
succeeding, this process the child of both forks, a listener that returns, a
`getopt` that permutes. -/
def sample_env : Env :=
  { littleEndian := true, NO_BCD := false, LIBEXECDIR := "/usr/local/libexec/fq",
    FQ_VERSION := "0.13", FQ_DEBUG := none, POSIXLY_CORRECT := false, gethostbyname := none,
    load_module_fails := (fun _ _ => true),
    open_rd := 3, dup2_stdin := 0, open_wr := 3, dup2_stdout := 1, dup2_stderr := 2,
    fork1 := 0, fork2 := 0, strerror := "Cannot allocate memory",
    bcd_config_init := 0, bcd_init := 0, bcd_attach := 0,
    bcd_kv_application := 0, bcd_kv_version := 0, bcd_error_message := "",
    sigaction := (fun _ => 0), listener_returns := true }

/-- The variables `parse_cli` leaves in the sample environment for the
options `-n 10.0.0.5 -B`. -/
def sample_globals : Globals :=
  { Globals.init with
    libexecdir := some "/usr/local/libexec/fq", usebcd := true,
    nodeid := load32 true [10, 0, 0, 5] }

/-- The sample environment on a host whose name resolves to `127.0.0.1`. -/
def loopback_host_env : Env :=
  { sample_env with gethostbyname := some { h_addrtype := 2, h_length := 4, h_addr := [127, 0, 0, 1] } }

/-! ## Library routines on decimal text -/

theorem digitChar_isdigit : ∀ d, d < 10 →
    isdigit (Nat.digitChar d) = true ∧ (Nat.digitChar d).toNat - 48 = d := by
  decide

theorem atoi_digits_toDigitsCore (fuel : Nat) : ∀ (n : Nat) (ds : List Char), n < fuel →
    atoi_digits (Nat.toDigitsCore 10 fuel n ds) 0 = atoi_digits ds n := by
  induction fuel with
  | zero => intro n ds h; omega
  | succ fuel ih =>
    intro n ds h
    have hd := digitChar_isdigit (n % 10) (Nat.mod_lt _ (by norm_num))
    simp only [Nat.toDigitsCore]
    by_cases h0 : n / 10 = 0
    · simp only [h0, if_true, atoi_digits, hd.1, hd.2]
      congr 1
      omega
    · simp only [h0, if_false]
      rw [ih (n / 10) _ (by omega)]
      simp only [atoi_digits, hd.1, hd.2, if_true]
      congr 1
      omega

theorem toDigitsCore_head (fuel : Nat) : ∀ (n : Nat) (ds : List Char),
    (0 < fuel ∨ ∃ c cs, ds = c :: cs ∧ isdigit c = true) →
    ∃ c cs, Nat.toDigitsCore 10 fuel n ds = c :: cs ∧ isdigit c = true := by
  induction fuel with
  | zero =>
    intro n ds h
    rcases h with h | h
    · omega
    · simpa [Nat.toDigitsCore] using h
  | succ fuel ih =>
    intro n ds _
    have hd := digitChar_isdigit (n % 10) (Nat.mod_lt _ (by norm_num))
    simp only [Nat.toDigitsCore]
    by_cases h0 : n / 10 = 0
    · simp only [h0, if_true]
      exact ⟨_, _, rfl, hd.1⟩
    · simp only [h0, if_false]
      exact ih _ _ (Or.inr ⟨_, _, rfl, hd.1⟩)

theorem isdigit_facts (c : Char) (h : isdigit c = true) :
    isspace c = false ∧ c ≠ '-' ∧ c ≠ '+' := by
  refine ⟨?_, ?_, ?_⟩
  · simp only [isdigit, Bool.and_eq_true, decide_eq_true_eq, Char.le_def] at h
    have h1 : (48 : Nat) ≤ c.toNat := h.1
    simp only [isspace, Bool.or_eq_false_iff, Bool.and_eq_false_iff, decide_eq_false_iff_not]
    omega
  · rintro rfl
    exact absurd h (by decide)
  · rintro rfl
    exact absurd h (by decide)

/-- The value `atoi` reads back from the decimal text of a number that fits
in an `int`. -/
theorem atoi_toString (p : Nat) (hp : p < 2147483648) : atoi (toString p) = (p : Int) := by
  obtain ⟨c, cs, hcs, hc⟩ := toDigitsCore_head (p + 1) p [] (Or.inl (by omega))
  have hv := atoi_digits_toDigitsCore (p + 1) p [] (by omega)
  obtain ⟨hsp, hm, hpl⟩ := isdigit_facts c hc
  have hdata : (toString p).data = c :: cs := by
    show (Nat.repr p).data = _
    simp only [Nat.repr, Nat.toDigits, List.asString, hcs]
  rw [hcs] at hv
  simp only [atoi, hdata, List.dropWhile, hsp, List.head?, Option.some.injEq, hm, hpl, if_false,
    hv]
  simp only [atoi_digits, to_int, strtol_clamp]
  split_ifs <;> omega

/-! ## Dotted quads and byte order -/

set_option maxRecDepth 100000 in
theorem repr_octet_data : ∀ a, a < 256 → (toString a).data =
    if a < 10 then [Nat.digitChar a]
    else if a < 100 then [Nat.digitChar (a / 10), Nat.digitChar (a % 10)]
    else [Nat.digitChar (a / 100), Nat.digitChar (a / 10 % 10), Nat.digitChar (a % 10)] := by
  decide

theorem inet_pton4_loop_digit (d : Nat) (hd : d < 10) (src : List Char) (done : List Nat)
    (cur : Nat) (saw_digit : Bool) (octets : Nat) :
    inet_pton4_loop (Nat.digitChar d :: src) done cur saw_digit octets =
      if saw_digit && decide (cur = 0) then none
      else if cur * 10 + d > 255 then none
      else if saw_digit then inet_pton4_loop src done (cur * 10 + d) true octets
      else if octets + 1 > 4 then none
      else inet_pton4_loop src done (cur * 10 + d) true (octets + 1) := by
  have h := digitChar_isdigit d hd
  simp only [inet_pton4_loop, h.1, h.2, if_true]

theorem inet_pton4_loop_first (d : Nat) (hd : d < 10) (src : List Char) (done : List Nat)
    (octets : Nat) (ho : octets < 4) :
    inet_pton4_loop (Nat.digitChar d :: src) done 0 false octets =
      inet_pton4_loop src done d true (octets + 1) := by
  rw [inet_pton4_loop_digit d hd]
  have h1 : ¬ (0 * 10 + d > 255) := by omega
  have h2 : ¬ (octets + 1 > 4) := by omega
  simp only [Bool.false_and, Bool.false_eq_true, if_false, h1, h2]
  congr 1
  omega

theorem inet_pton4_loop_next (d : Nat) (hd : d < 10) (src : List Char) (done : List Nat)
    (cur octets : Nat) (hcur : cur ≠ 0) (hle : cur * 10 + d ≤ 255) :
    inet_pton4_loop (Nat.digitChar d :: src) done cur true octets =
      inet_pton4_loop src done (cur * 10 + d) true octets := by
  rw [inet_pton4_loop_digit d hd]
  have h1 : ¬ (cur * 10 + d > 255) := by omega
  simp only [Bool.true_and, decide_eq_true_eq, hcur, if_false, h1, if_true]

/-- Scanning the decimal text of an octet starts a new octet with that value. -/
theorem inet_pton4_loop_octet (a : Nat) (ha : a < 256) (src : List Char) (done : List Nat)
    (octets : Nat) (ho : octets < 4) :
    inet_pton4_loop ((toString a).data ++ src) done 0 false octets =
      inet_pton4_loop src done a true (octets + 1) := by
  rw [repr_octet_data a ha]
  by_cases h1 : a < 10
  · rw [if_pos h1]
    simp only [List.singleton_append, List.cons_append, List.nil_append]
    rw [inet_pton4_loop_first a h1 _ _ _ ho]
  · rw [if_neg h1]
    by_cases h2 : a < 100
    · rw [if_pos h2]
      simp only [List.cons_append, List.nil_append]
      rw [inet_pton4_loop_first (a / 10) (by omega) _ _ _ ho,
        inet_pton4_loop_next (a % 10) (by omega) _ _ _ _ (by omega) (by omega)]
      congr 1
      omega
    · rw [if_neg h2]
      simp only [List.cons_append, List.nil_append]
      rw [inet_pton4_loop_first (a / 100) (by omega) _ _ _ ho,
        inet_pton4_loop_next (a / 10 % 10) (by omega) _ _ _ _ (by omega) (by omega),
        inet_pton4_loop_next (a % 10) (by omega) _ _ _ _ (by omega) (by omega)]
      congr 1
      omega

theorem inet_pton4_loop_dot (src : List Char) (done : List Nat) (cur octets : Nat)
    (ho : octets < 4) :
    inet_pton4_loop ('.' :: src) done cur true octets =
      inet_pton4_loop src (done ++ [cur]) 0 false octets := by
  have h : isdigit '.' = false := by decide
  simp only [inet_pton4_loop, h]
  simp
  omega

/-- The library accepts the decimal dotted quad of four octets and yields
those octets. -/
theorem inet_pton4_dotted_quad (a b c d : Nat) (ha : a < 256) (hb : b < 256) (hc : c < 256)
    (hd : d < 256) : inet_pton4 (dotted_quad a b c d) = some [a, b, c, d] := by
  have hdata : (dotted_quad a b c d).data =
      (toString a).data ++ ('.' :: ((toString b).data ++ ('.' :: ((toString c).data ++
        ('.' :: ((toString d).data ++ [])))))) := by
    simp [dotted_quad, String.data_append]
  rw [inet_pton4, hdata, inet_pton4_loop_octet a ha _ _ 0 (by omega),
    inet_pton4_loop_dot _ _ _ _ (by omega), inet_pton4_loop_octet b hb _ _ 1 (by omega),
    inet_pton4_loop_dot _ _ _ _ (by omega), inet_pton4_loop_octet c hc _ _ 2 (by omega),
    inet_pton4_loop_dot _ _ _ _ (by omega), inet_pton4_loop_octet d hd _ _ 3 (by omega)]
  simp [inet_pton4_loop]

theorem store32_load32 (le : Bool) (a b c d : Nat) (ha : a < 256) (hb : b < 256) (hc : c < 256)
    (hd : d < 256) : store32 le (load32 le [a, b, c, d]) = [a, b, c, d] := by
  cases le <;> simp [store32, load32] <;> omega

theorem load32_eq_zero (le : Bool) (a b c d : Nat) (ha : a < 256) (hb : b < 256) (hc : c < 256)
    (hd : d < 256) : load32 le [a, b, c, d] = 0 ↔ (a = 0 ∧ b = 0 ∧ c = 0 ∧ d = 0) := by
  cases le <;> simp [load32] <;> omega

theorem htonl_loopback (le : Bool) : htonl le 0x7f000001 = load32 le [127, 0, 0, 1] := by
  cases le <;> decide

theorem load32_eq_loopback (le : Bool) (a b c d : Nat) (ha : a < 256) (hb : b < 256)
    (hc : c < 256) (hd : d < 256) :
    load32 le [a, b, c, d] = htonl le 0x7f000001 ↔ (a = 127 ∧ b = 0 ∧ c = 0 ∧ d = 1) := by
  rw [htonl_loopback]
  cases le <;> simp [load32] <;> omega

theorem htonl_loopback_ne_zero (le : Bool) : htonl le 0x7f000001 ≠ 0 := by
  cases le <;> decide

/-! ## The option loop -/

theorem Step.trace_after {α : Type} (evs : List Event) (s : Step α) :
    (s.after evs).trace = evs ++ s.trace := by
  cases s <;> rfl

theorem parse_cli_case_default (env : Env) (prog : String) (c : Char) (a : String) (g : Globals)
    (d : Option String) (hc : c ∉ handled) :
    parse_cli_case env prog c a g d = .exit (usage prog) (-1) := by
  simp only [handled, List.mem_cons, List.mem_singleton, not_or, List.not_mem_nil, or_false] at hc
  obtain ⟨h1, h2, h3, h4, h5, h6, h7, h8, h9, h10, h11, h12, h13⟩ := hc
  simp only [parse_cli_case, h1, h2, h3, h4, h5, h6, h7, h8, h9, h10, h11, h12, h13, if_false]

theorem parse_cli_case_n (env : Env) (prog : String) (a : String) (g : Globals)
    (d : Option String) :
    parse_cli_case env prog 'n' a g d =
      match inet_pton4 a with
      | none => .exit [.fprintf_stderr "Bad argument to -n, must be an IPv4 address.\n"] (-1)
      | some bytes =>
        if load32 env.littleEndian bytes = 0 ∨
            load32 env.littleEndian bytes = htonl env.littleEndian 0x7f000001 then
          .exit [.fprintf_stderr "nodeid cannot be INADDR_ANY or loopback\n"] (-1)
        else .ret [] ({ g with nodeid := load32 env.littleEndian bytes }, d) := rfl

theorem usage_isParseCall (prog : String) : ∀ e ∈ usage prog, e.isParseCall = true := by
  intro e he
  simp only [usage, List.mem_cons, List.mem_singleton, List.not_mem_nil, or_false] at he
  rcases he with h | h | h | h | h | h | h | h | h | h | h | h | h <;> subst h <;> rfl

theorem parse_cli_case_trace (env : Env) (prog : String) (c : Char) (a : String) (g : Globals)
    (d : Option String) : ∀ e ∈ (parse_cli_case env prog c a g d).trace, e.isParseCall = true := by
  intro e he
  by_cases hc : c ∈ handled
  · simp only [handled, List.mem_cons, List.mem_singleton, List.not_mem_nil, or_false] at hc
    rcases hc with h | h | h | h | h | h | h | h | h | h | h | h | h <;> subst h
    all_goals first
      | (rw [parse_cli_case_n] at he
         split at he
         · simp only [Step.trace, List.mem_singleton] at he; subst he; rfl
         · split_ifs at he
           · simp only [Step.trace, List.mem_singleton] at he; subst he; rfl
           · simp only [Step.trace, List.not_mem_nil] at he)
      | (have he2 : e ∈ usage prog := he
         exact usage_isParseCall prog e he2)
      | (have he2 : e ∈ ([] : List Event) := he
         exact absurd he2 (List.not_mem_nil e))
      | (have he2 : e ∈ [Event.fqd_http_set_root a] := he
         simp only [List.mem_singleton] at he2; subst he2; rfl)
      | (have he2 : e ∈ [Event.fqd_route_load_module g.libexecdir a ".so"
            (env.load_module_fails g.libexecdir a)] := he
         simp only [List.mem_singleton] at he2; subst he2; rfl)
  · rw [parse_cli_case_default env prog c a g d hc] at he
    exact usage_isParseCall prog e he

theorem parse_cli_case_n_ret (env : Env) (prog : String) (a : String) (g g1 : Globals)
    (d d1 : Option String) (tr : List Event)
    (h : parse_cli_case env prog 'n' a g d = .ret tr (g1, d1)) :
    ∃ bytes, inet_pton4 a = some bytes ∧ load32 env.littleEndian bytes ≠ 0 ∧
      load32 env.littleEndian bytes ≠ htonl env.littleEndian 0x7f000001 ∧
      tr = [] ∧ g1 = { g with nodeid := load32 env.littleEndian bytes } ∧ d1 = d := by
  rw [parse_cli_case_n] at h
  split at h
  · exact absurd h (by simp)
  · rename_i bytes hb
    split_ifs at h with h0
    simp only [Step.ret.injEq, Prod.mk.injEq] at h
    obtain ⟨h1, h2, h3⟩ := h
    rw [not_or] at h0
    exact ⟨bytes, hb, h0.1, h0.2, h1.symm, h2.symm, h3.symm⟩

/-- What one pass through the `switch` does to the variables when it does not
exit. -/
theorem parse_cli_case_ret (env : Env) (prog : String) (c : Char) (a : String) (g g1 : Globals)
    (d d1 : Option String) (tr : List Event)
    (h : parse_cli_case env prog c a g d = .ret tr (g1, d1)) :
    g1.worker_threads = (if c = 't' then atoi a else g.worker_threads) ∧
    g1.port = (if c = 'p' then to_ushort (atoi a) else g.port) ∧
    g1.nodeid = (if c = 'n' then load32 env.littleEndian ((inet_pton4 a).getD []) else g.nodeid) ∧
    g1.foreground = (if c = 'D' then 1 else g.foreground) ∧
    g1.config_path = (if c = 'c' then some a else g.config_path) ∧
    g1.queue_path = (if c = 'q' then some a else g.queue_path) ∧
    (c = 'n' → g1.nodeid ≠ 0 ∧ g1.nodeid ≠ htonl env.littleEndian 0x7f000001) := by
  by_cases hn : c = 'n'
  · subst hn
    obtain ⟨bytes, hb, h0, h1, -, rfl, -⟩ := parse_cli_case_n_ret env prog a g g1 d d1 tr h
    refine ⟨rfl, rfl, ?_, rfl, rfl, rfl, fun _ => ⟨h0, h1⟩⟩
    simp [hb]
  by_cases hc : c ∈ handled
  · simp only [handled, List.mem_cons, List.mem_singleton, List.not_mem_nil, or_false] at hc
    rcases hc with hc | hc | hc | hc | hc | hc | hc | hc | hc | hc | hc | hc | hc <;> subst hc
    all_goals first
      | exact absurd rfl hn
      | (simp [parse_cli_case] at h
         obtain ⟨-, rfl, -⟩ := h
         simp)
      | (simp [parse_cli_case] at h)
  · rw [parse_cli_case_default env prog c a g d hc] at h
    exact absurd h (by simp)

theorem parse_cli_loop_cons_ret (env : Env) (prog : String) (c : Char) (a : String)
    (rest : List (Char × String)) (g g1 : Globals) (d d1 : Option String) (tr : List Event)
    (h : parse_cli_loop env prog ((c, a) :: rest) g d = .ret tr (g1, d1)) :
    ∃ t0 g0 d0 t1, parse_cli_case env prog c a g d = .ret t0 (g0, d0) ∧
      parse_cli_loop env prog rest g0 d0 = .ret t1 (g1, d1) ∧ tr = t0 ++ t1 := by
  rw [parse_cli_loop] at h
  cases hc : parse_cli_case env prog c a g d with
  | exit t0 code => rw [hc] at h; exact absurd h (by simp)
  | ret t0 v =>
    obtain ⟨g0, d0⟩ := v
    rw [hc] at h
    simp only at h
    cases hl : parse_cli_loop env prog rest g0 d0 with
    | exit t1 code => rw [hl] at h; exact absurd h (by simp [Step.after])
    | ret t1 v1 =>
      rw [hl] at h
      simp only [Step.after, Step.ret.injEq] at h
      exact ⟨t0, g0, d0, t1, rfl, by rw [hl, h.2], h.1.symm⟩

theorem parse_cli_loop_trace (env : Env) (prog : String) (opts : List (Char × String)) :
    ∀ (g : Globals) (d : Option String),
      ∀ e ∈ (parse_cli_loop env prog opts g d).trace, e.isParseCall = true := by
  induction opts with
  | nil => intro g d e he; simp [parse_cli_loop, Step.trace] at he
  | cons o rest ih =>
    obtain ⟨c, a⟩ := o
    intro g d e he
    rw [parse_cli_loop] at he
    have hct := parse_cli_case_trace env prog c a g d
    cases hc : parse_cli_case env prog c a g d with
    | exit t0 code =>
      rw [hc] at he hct
      exact hct e he
    | ret t0 v =>
      obtain ⟨g0, d0⟩ := v
      rw [hc] at he hct
      simp only [Step.trace_after, List.mem_append] at he
      rcases he with he | he
      · exact hct e he
      · exact ih g0 d0 e he

/-- The variables left by the option loop when it runs to the end, in terms
of the last occurrence of each option. -/
theorem parse_cli_loop_ret (env : Env) (prog : String) (opts : List (Char × String)) :
    ∀ (g g1 : Globals) (d d1 : Option String) (tr : List Event),
      parse_cli_loop env prog opts g d = .ret tr (g1, d1) →
      g1.worker_threads = (last_optarg 't' opts).elim g.worker_threads atoi ∧
      g1.port = (last_optarg 'p' opts).elim g.port (fun a => to_ushort (atoi a)) ∧
      g1.nodeid = (last_optarg 'n' opts).elim g.nodeid
        (fun a => load32 env.littleEndian ((inet_pton4 a).getD [])) ∧
      g1.foreground = (last_optarg 'D' opts).elim g.foreground (fun _ => 1) ∧
      g1.config_path = (last_optarg 'c' opts).elim g.config_path some ∧
      g1.queue_path = (last_optarg 'q' opts).elim g.queue_path some ∧
      (g.nodeid ≠ htonl env.littleEndian 0x7f000001 →
        g1.nodeid ≠ htonl env.littleEndian 0x7f000001) ∧
      (last_optarg 'n' opts ≠ none → g1.nodeid ≠ 0) := by
  induction opts with
  | nil =>
    intro g g1 d d1 tr h
    simp only [parse_cli_loop, Step.ret.injEq, Prod.mk.injEq] at h
    obtain ⟨-, rfl, -⟩ := h
    simp [last_optarg]
  | cons o rest ih =>
    obtain ⟨c, a⟩ := o
    intro g g1 d d1 tr h
    obtain ⟨t0, g0, d0, t1, hc, hl, -⟩ := parse_cli_loop_cons_ret env prog c a rest g g1 d d1 tr h
    obtain ⟨s1, s2, s3, s4, s5, s6, s7⟩ := parse_cli_case_ret env prog c a g g0 d d0 t0 hc
    obtain ⟨r1, r2, r3, r4, r5, r6, r7, r8⟩ := ih g0 g1 d0 d1 t1 hl
    refine ⟨?_, ?_, ?_, ?_, ?_, ?_, ?_, ?_⟩
    · rw [r1, s1]; simp only [last_optarg]
      cases last_optarg 't' rest <;> by_cases hx : c = 't' <;> simp [hx]
    · rw [r2, s2]; simp only [last_optarg]
      cases last_optarg 'p' rest <;> by_cases hx : c = 'p' <;> simp [hx]
    · rw [r3, s3]; simp only [last_optarg]
      cases last_optarg 'n' rest <;> by_cases hx : c = 'n' <;> simp [hx]
    · rw [r4, s4]; simp only [last_optarg]
      cases last_optarg 'D' rest <;> by_cases hx : c = 'D' <;> simp [hx]
    · rw [r5, s5]; simp only [last_optarg]
      cases last_optarg 'c' rest <;> by_cases hx : c = 'c' <;> simp [hx]
    · rw [r6, s6]; simp only [last_optarg]
      cases last_optarg 'q' rest <;> by_cases hx : c = 'q' <;> simp [hx]
    · intro hg
      apply r7
      by_cases hx : c = 'n'
      · exact (s7 hx).2
      · rw [s3, if_neg hx]; exact hg
    · intro hn
      simp only [last_optarg] at hn
      cases hr : last_optarg 'n' rest with
      | some x => exact r8 (by simp [hr])
      | none =>
        rw [hr] at hn
        by_cases hx : c = 'n'
        · rw [r3, hr]
          exact (s7 hx).1
        · simp [hx] at hn

theorem parse_cli_ret (env : Env) (argv : List String) (g g1 : Globals) (tr : List Event)
    (h : parse_cli env argv g = .ret tr g1) :
    ∃ t d1, parse_cli_loop env (argv.headD "") (getopt_stream env.POSIXLY_CORRECT argv)
      { g with libexecdir := some env.LIBEXECDIR } env.FQ_DEBUG = .ret t (g1, d1) := by
  unfold parse_cli at h
  split at h
  · exact absurd h (by simp)
  · rename_i t g2 d2 heq
    split at h <;> simp only [Step.ret.injEq] at h <;> obtain ⟨-, rfl⟩ := h <;> exact ⟨t, _, heq⟩

theorem parse_cli_trace (env : Env) (argv : List String) (g : Globals) :
    ∀ e ∈ (parse_cli env argv g).trace, e.isParseCall = true := by
  intro e he
  have hl := parse_cli_loop_trace env (argv.headD "") (getopt_stream env.POSIXLY_CORRECT argv)
    { g with libexecdir := some env.LIBEXECDIR } env.FQ_DEBUG
  unfold parse_cli at he
  split at he
  · rename_i t code heq
    rw [heq] at hl
    exact hl e he
  · rename_i t g2 d2 heq
    rw [heq] at hl
    split at he
    · simp only [Step.trace, List.mem_append, List.mem_singleton] at he
      rcases he with he | he
      · exact hl e he
      · subst he; rfl
    · exact hl e he

/-! ## The steps of `main` after option parsing -/

/-- The ten ways through the daemonization block, each with the results of
the calls that lead to it. -/
theorem daemonize_cases (env : Env) :
    (True ∧ env.open_rd < 0 ∧
      daemonize env = .exit ((daemon_steps env).take 1 ++ [die_message env "Failed to setup stdin"]) (-1)) ∨
    ((¬ env.open_rd < 0) ∧
      env.dup2_stdin < 0 ∧
      daemonize env = .exit ((daemon_steps env).take 2 ++ [die_message env "Failed to setup stdin"]) (-1)) ∨
    ((¬ env.open_rd < 0 ∧ ¬ env.dup2_stdin < 0) ∧
      env.open_wr < 0 ∧
      daemonize env = .exit ((daemon_steps env).take 4 ++ [die_message env "Failed to setup std\x7bout,err\x7d"]) (-1)) ∨
    ((¬ env.open_rd < 0 ∧ ¬ env.dup2_stdin < 0 ∧ ¬ env.open_wr < 0) ∧
      env.dup2_stdout < 0 ∧
      daemonize env = .exit ((daemon_steps env).take 5 ++ [die_message env "Failed to setup std\x7bout,err\x7d"]) (-1)) ∨
    ((¬ env.open_rd < 0 ∧ ¬ env.dup2_stdin < 0 ∧ ¬ env.open_wr < 0 ∧ ¬ env.dup2_stdout < 0) ∧
      env.dup2_stderr < 0 ∧
      daemonize env = .exit ((daemon_steps env).take 6 ++ [die_message env "Failed to setup std\x7bout,err\x7d"]) (-1)) ∨
    ((¬ env.open_rd < 0 ∧ ¬ env.dup2_stdin < 0 ∧ ¬ env.open_wr < 0 ∧ ¬ env.dup2_stdout < 0 ∧
       ¬ env.dup2_stderr < 0) ∧
      env.fork1 < 0 ∧
      daemonize env = .exit ((daemon_steps env).take 8 ++ [die_message env "Failed to fork"]) (-1)) ∨
    ((¬ env.open_rd < 0 ∧ ¬ env.dup2_stdin < 0 ∧ ¬ env.open_wr < 0 ∧ ¬ env.dup2_stdout < 0 ∧
       ¬ env.dup2_stderr < 0 ∧ ¬ env.fork1 < 0) ∧
      env.fork1 > 0 ∧
      daemonize env = .exit ((daemon_steps env).take 8) (0)) ∨
    ((¬ env.open_rd < 0 ∧ ¬ env.dup2_stdin < 0 ∧ ¬ env.open_wr < 0 ∧ ¬ env.dup2_stdout < 0 ∧
       ¬ env.dup2_stderr < 0 ∧ ¬ env.fork1 < 0 ∧ ¬ env.fork1 > 0) ∧
      env.fork2 < 0 ∧
      daemonize env = .exit ((daemon_steps env).take 10 ++ [die_message env "Failed to fork"]) (-1)) ∨
    ((¬ env.open_rd < 0 ∧ ¬ env.dup2_stdin < 0 ∧ ¬ env.open_wr < 0 ∧ ¬ env.dup2_stdout < 0 ∧
       ¬ env.dup2_stderr < 0 ∧ ¬ env.fork1 < 0 ∧ ¬ env.fork1 > 0 ∧ ¬ env.fork2 < 0) ∧
      env.fork2 > 0 ∧
      daemonize env = .exit ((daemon_steps env).take 10) (0)) ∨
    ((¬ env.open_rd < 0 ∧ ¬ env.dup2_stdin < 0 ∧ ¬ env.open_wr < 0 ∧ ¬ env.dup2_stdout < 0 ∧
       ¬ env.dup2_stderr < 0 ∧ ¬ env.fork1 < 0 ∧ ¬ env.fork1 > 0 ∧ ¬ env.fork2 < 0 ∧
       ¬ env.fork2 > 0) ∧
      True ∧ daemonize env = .ret (daemon_steps env) ()) := by
  by_cases h1 : env.open_rd < 0
  · refine Or.inl ⟨trivial, h1, ?_⟩
    simp only [daemonize, die, if_pos h1]
    rfl
  by_cases h2 : env.dup2_stdin < 0
  · refine Or.inr (Or.inl ⟨h1, h2, ?_⟩)
    simp only [daemonize, die, if_neg h1, if_pos h2]
    rfl
  by_cases h3 : env.open_wr < 0
  · refine Or.inr (Or.inr (Or.inl ⟨⟨h1, h2⟩, h3, ?_⟩))
    simp only [daemonize, die, if_neg h1, if_neg h2, if_pos h3]
    rfl
  by_cases h4 : env.dup2_stdout < 0
  · refine Or.inr (Or.inr (Or.inr (Or.inl ⟨⟨h1, h2, h3⟩, h4, ?_⟩)))
    simp only [daemonize, die, if_neg h1, if_neg h2, if_neg h3, if_pos h4]
    rfl
  by_cases h5 : env.dup2_stderr < 0
  · refine Or.inr (Or.inr (Or.inr (Or.inr (Or.inl ⟨⟨h1, h2, h3, h4⟩, h5, ?_⟩))))
    simp only [daemonize, die, if_neg h1, if_neg h2, if_neg h3, if_neg h4, if_pos h5]
    rfl
  by_cases h6 : env.fork1 < 0
  · refine Or.inr (Or.inr (Or.inr (Or.inr (Or.inr (Or.inl ⟨⟨h1, h2, h3, h4, h5⟩, h6, ?_⟩)))))
    simp only [daemonize, die, if_neg h1, if_neg h2, if_neg h3, if_neg h4, if_neg h5, if_pos h6]
    rfl
  by_cases h7 : env.fork1 > 0
  · refine Or.inr (Or.inr (Or.inr (Or.inr (Or.inr (Or.inr (Or.inl ⟨⟨h1, h2, h3, h4, h5, h6⟩, h7, ?_⟩))))))
    simp only [daemonize, die, if_neg h1, if_neg h2, if_neg h3, if_neg h4, if_neg h5, if_neg h6,
      if_pos h7]
    rfl
  by_cases h8 : env.fork2 < 0
  · refine Or.inr (Or.inr (Or.inr (Or.inr (Or.inr (Or.inr (Or.inr (Or.inl ⟨⟨h1, h2, h3, h4, h5, h6, h7⟩, h8, ?_⟩)))))))
    simp only [daemonize, die, if_neg h1, if_neg h2, if_neg h3, if_neg h4, if_neg h5, if_neg h6,
      if_neg h7, if_pos h8]
    rfl
  by_cases h9 : env.fork2 > 0
  · refine Or.inr (Or.inr (Or.inr (Or.inr (Or.inr (Or.inr (Or.inr (Or.inr (Or.inl ⟨⟨h1, h2, h3, h4, h5, h6, h7, h8⟩, h9, ?_⟩))))))))
    simp only [daemonize, die, if_neg h1, if_neg h2, if_neg h3, if_neg h4, if_neg h5, if_neg h6,
      if_neg h7, if_neg h8, if_pos h9]
    rfl
  · refine Or.inr (Or.inr (Or.inr (Or.inr (Or.inr (Or.inr (Or.inr (Or.inr (Or.inr ⟨⟨h1, h2, h3, h4, h5, h6, h7, h8, h9⟩, trivial, ?_⟩))))))))
    simp only [daemonize, die, if_neg h1, if_neg h2, if_neg h3, if_neg h4, if_neg h5, if_neg h6,
      if_neg h7, if_neg h8, if_neg h9]
    rfl

theorem daemonize_early (env : Env) :
    ∀ e ∈ (daemonize env).trace, e.isDownstream = false ∧ e.isCrashReporter = false := by
  rcases daemonize_cases env with ⟨-, -, e⟩ | ⟨-, -, e⟩ | ⟨-, -, e⟩ | ⟨-, -, e⟩ | ⟨-, -, e⟩ |
    ⟨-, -, e⟩ | ⟨-, -, e⟩ | ⟨-, -, e⟩ | ⟨-, -, e⟩ | ⟨-, -, e⟩ <;> rw [e] <;>
    simp [Step.trace, daemon_steps, die_message, Event.isDownstream, Event.isCrashReporter]

/-- The result of the daemonization block for each outcome of its calls. -/
theorem daemonize_eval (env : Env) :
    (env.open_rd < 0 → daemonize env =
      .exit ((daemon_steps env).take 1 ++ [die_message env "Failed to setup stdin"]) (-1)) ∧
    (0 ≤ env.open_rd ∧ env.dup2_stdin < 0 → daemonize env =
      .exit ((daemon_steps env).take 2 ++ [die_message env "Failed to setup stdin"]) (-1)) ∧
    (0 ≤ env.open_rd ∧ 0 ≤ env.dup2_stdin ∧ env.open_wr < 0 → daemonize env =
      .exit ((daemon_steps env).take 4 ++ [die_message env "Failed to setup std\x7bout,err\x7d"]) (-1)) ∧
    (0 ≤ env.open_rd ∧ 0 ≤ env.dup2_stdin ∧ 0 ≤ env.open_wr ∧ env.dup2_stdout < 0 →
      daemonize env =
        .exit ((daemon_steps env).take 5 ++ [die_message env "Failed to setup std\x7bout,err\x7d"]) (-1)) ∧
    (0 ≤ env.open_rd ∧ 0 ≤ env.dup2_stdin ∧ 0 ≤ env.open_wr ∧ 0 ≤ env.dup2_stdout ∧
      env.dup2_stderr < 0 → daemonize env =
        .exit ((daemon_steps env).take 6 ++ [die_message env "Failed to setup std\x7bout,err\x7d"]) (-1)) ∧
    (stdio_redirected env ∧ env.fork1 < 0 → daemonize env =
      .exit ((daemon_steps env).take 8 ++ [die_message env "Failed to fork"]) (-1)) ∧
    (stdio_redirected env ∧ 0 < env.fork1 → daemonize env =
      .exit ((daemon_steps env).take 8) 0) ∧
    (stdio_redirected env ∧ env.fork1 = 0 ∧ env.fork2 < 0 → daemonize env =
      .exit ((daemon_steps env).take 10 ++ [die_message env "Failed to fork"]) (-1)) ∧
    (stdio_redirected env ∧ env.fork1 = 0 ∧ 0 < env.fork2 → daemonize env =
      .exit ((daemon_steps env).take 10) 0) ∧
    (stdio_redirected env ∧ env.fork1 = 0 ∧ env.fork2 = 0 → daemonize env =
      .ret (daemon_steps env) ()) := by
  unfold stdio_redirected
  refine ⟨?_, ?_, ?_, ?_, ?_, ?_, ?_, ?_, ?_, ?_⟩ <;> intro h <;>
    rcases daemonize_cases env with ⟨hp, hk, e⟩ | ⟨hp, hk, e⟩ | ⟨hp, hk, e⟩ | ⟨hp, hk, e⟩ |
      ⟨hp, hk, e⟩ | ⟨hp, hk, e⟩ | ⟨hp, hk, e⟩ | ⟨hp, hk, e⟩ | ⟨hp, hk, e⟩ | ⟨hp, hk, e⟩ <;>
    first
      | exact e
      | (exfalso; omega)

theorem bcd_setup_sigaction_loop_events (env : Env) (sigs : List Nat) : ∀ (i : Nat),
    ∀ e ∈ bcd_setup_sigaction_loop env i sigs,
      e.isDaemonCall = false ∧ e.isDownstream = false := by
  induction sigs with
  | nil => intro i e he; simp [bcd_setup_sigaction_loop] at he
  | cons s rest ih =>
    intro i e he
    simp only [bcd_setup_sigaction_loop, List.mem_append] at he
    rcases he with he | he
    · by_cases hs : env.sigaction i = -1
      · rw [if_pos hs] at he
        simp only [List.mem_cons, List.mem_singleton, List.not_mem_nil, or_false] at he
        rcases he with he | he <;> subst he <;> exact ⟨rfl, rfl⟩
      · rw [if_neg hs] at he
        simp only [List.mem_singleton] at he
        subst he; exact ⟨rfl, rfl⟩
    · exact ih (i + 1) e he

theorem bcd_fatal_events (env : Env) (pre : List Event)
    (hpre : ∀ e ∈ pre, e.isDaemonCall = false ∧ e.isDownstream = false) :
    ∀ e ∈ (bcd_fatal env pre : Step Unit).trace,
      e.isDaemonCall = false ∧ e.isDownstream = false := by
  intro e he
  simp only [bcd_fatal, Step.trace, List.mem_append, List.mem_singleton] at he
  rcases he with he | he
  · exact hpre e he
  · subst he; exact ⟨rfl, rfl⟩

theorem bcd_startup_events (env : Env) (g : Globals) :
    ∀ e ∈ (bcd_startup env g).trace, e.isDaemonCall = false ∧ e.isDownstream = false := by
  have hs := bcd_setup_sigaction_loop_events env bcd_signals 0
  have hnil : ∀ e ∈ ([] : List Event), e.isDaemonCall = false ∧ e.isDownstream = false := by
    intro e he; exact absurd he (List.not_mem_nil e)
  have hcons : ∀ (x : Event) (l : List Event), (x.isDaemonCall = false ∧ x.isDownstream = false) →
      (∀ e ∈ l, e.isDaemonCall = false ∧ e.isDownstream = false) →
      ∀ e ∈ l ++ [x], e.isDaemonCall = false ∧ e.isDownstream = false := by
    intro x l hx hl e he
    simp only [List.mem_append, List.mem_singleton] at he
    rcases he with he | he
    · exact hl e he
    · subst he; exact hx
  have h1 : ∀ e ∈ [Event.bcd_config_init], e.isDaemonCall = false ∧ e.isDownstream = false := by
    intro e he
    simp only [List.mem_singleton] at he
    subst he; exact ⟨rfl, rfl⟩
  have h2 := hcons .bcd_init _ ⟨rfl, rfl⟩ h1
  have h3 := hcons .bcd_attach _ ⟨rfl, rfl⟩ h2
  have h4 := hcons (.bcd_kv "application" "fqd") _ ⟨rfl, rfl⟩ h3
  have h5 := hcons (.bcd_kv "version" env.FQ_VERSION) _ ⟨rfl, rfl⟩ h4
  simp only [bcd_startup]
  by_cases c0 : env.NO_BCD = true
  · rw [if_pos c0]; exact hnil
  rw [if_neg c0]
  by_cases cu : g.usebcd = true
  swap
  · rw [if_neg cu]; exact hnil
  rw [if_pos cu]
  by_cases c1 : env.bcd_config_init = -1
  · rw [if_pos c1]; exact bcd_fatal_events env _ h1
  rw [if_neg c1]
  by_cases c2 : env.bcd_init = -1
  · rw [if_pos c2]; exact bcd_fatal_events env _ h2
  rw [if_neg c2]
  by_cases c3 : env.bcd_attach = -1
  · rw [if_pos c3]; exact bcd_fatal_events env _ h3
  rw [if_neg c3]
  by_cases c4 : env.bcd_kv_application = -1
  · rw [if_pos c4]; exact bcd_fatal_events env _ h4
  rw [if_neg c4]
  by_cases c5 : env.bcd_kv_version = -1
  · rw [if_pos c5]; exact bcd_fatal_events env _ h5
  rw [if_neg c5]
  intro e he
  simp only [Step.trace] at he
  rcases List.mem_append.mp he with he | he
  · exact h5 e he
  · exact hs e he

/-- The crash-reporter block either does nothing and returns, or starts with
`bcd_config_init`. -/
theorem bcd_startup_head (env : Env) (g : Globals) :
    bcd_startup env g = .ret [] () ∨
      (bcd_startup env g).trace.head? = some .bcd_config_init := by
  simp only [bcd_startup, bcd_fatal]
  by_cases c0 : env.NO_BCD = true
  · rw [if_pos c0]; exact Or.inl rfl
  rw [if_neg c0]
  by_cases cu : g.usebcd = true
  swap
  · rw [if_neg cu]; exact Or.inl rfl
  rw [if_pos cu]
  right
  by_cases c1 : env.bcd_config_init = -1
  · rw [if_pos c1]; rfl
  rw [if_neg c1]
  by_cases c2 : env.bcd_init = -1
  · rw [if_pos c2]; rfl
  rw [if_neg c2]
  by_cases c3 : env.bcd_attach = -1
  · rw [if_pos c3]; rfl
  rw [if_neg c3]
  by_cases c4 : env.bcd_kv_application = -1
  · rw [if_pos c4]; rfl
  rw [if_neg c4]
  by_cases c5 : env.bcd_kv_version = -1
  · rw [if_pos c5]; rfl
  rw [if_neg c5]
  rfl

/-- The four ways through `main` once `parse_cli` has returned: unknown
identity, exit inside the daemonization block, exit at the label `fatal`,
handoff. -/
theorem main_after_parse_cases (env : Env) (g : Globals) :
    (g.nodeid = 0 ∧ main_after_parse env g =
      ⟨[.global_functions_init g.libexecdir,
        .fprintf_stderr "Could not determine host address, use -n <ip>\n"], .exited 255⟩) ∨
    (g.nodeid ≠ 0 ∧ g.foreground = 0 ∧ ∃ td code, daemonize env = .exit td code ∧
      main_after_parse env g =
        ⟨[.global_functions_init g.libexecdir, .signal_SIGPIPE_SIG_IGN] ++ td,
          .exited (exit_status code)⟩) ∨
    (g.nodeid ≠ 0 ∧ ∃ td tb code,
      ((g.foreground = 0 ∧ daemonize env = .ret td ()) ∨ (g.foreground ≠ 0 ∧ td = [])) ∧
      bcd_startup env g = .exit tb code ∧
      main_after_parse env g =
        ⟨[.global_functions_init g.libexecdir, .signal_SIGPIPE_SIG_IGN] ++ td ++ tb,
          .exited (exit_status code)⟩) ∨
    (g.nodeid ≠ 0 ∧ ∃ td tb,
      ((g.foreground = 0 ∧ daemonize env = .ret td ()) ∨ (g.foreground ≠ 0 ∧ td = [])) ∧
      bcd_startup env g = .ret tb () ∧
      main_after_parse env g =
        ⟨[.global_functions_init g.libexecdir, .signal_SIGPIPE_SIG_IGN] ++ td ++ tb ++
          [.fqd_config_init g.nodeid g.config_path g.queue_path,
           .fqd_start_worker_threads g.worker_threads,
           .fprintf_stderr ("Listening on port: " ++ toString g.port ++ "\n"),
           .fqd_listener g.port] ++
          (if env.listener_returns then
            [.fqd_stop_worker_threads,
             .fprintf_stderr "Listener thread could not start. Exiting.\n"]
           else []),
          if env.listener_returns then .exited 0 else .blocked⟩) := by
  by_cases hn : g.nodeid = 0
  · left
    refine ⟨hn, ?_⟩
    simp only [main_after_parse, if_pos hn]
    rfl
  right
  have hl : (listener_thread env g) =
      ([.fqd_start_worker_threads g.worker_threads,
        .fprintf_stderr ("Listening on port: " ++ toString g.port ++ "\n"),
        .fqd_listener g.port] ++
        (if env.listener_returns then [Event.fqd_stop_worker_threads] else []),
        env.listener_returns) := by
    simp only [listener_thread]
    cases env.listener_returns <;> rfl
  by_cases hf : g.foreground = 0
  · cases hd : daemonize env with
    | exit td code =>
      left
      refine ⟨hn, hf, td, code, rfl, ?_⟩
      simp only [main_after_parse, if_neg hn, if_pos hf, hd]
      rfl
    | ret td u =>
      right
      cases hb : bcd_startup env g with
      | exit tb code =>
        left
        refine ⟨hn, td, tb, code, Or.inl ⟨hf, rfl⟩, rfl, ?_⟩
        simp only [main_after_parse, if_neg hn, if_pos hf, hd, hb]
        rfl
      | ret tb u2 =>
        right
        refine ⟨hn, td, tb, Or.inl ⟨hf, rfl⟩, rfl, ?_⟩
        simp only [main_after_parse, if_neg hn, if_pos hf, hd, hb, hl]
        cases env.listener_returns <;> simp [exit_status]
  · right
    cases hb : bcd_startup env g with
    | exit tb code =>
      left
      refine ⟨hn, [], tb, code, Or.inr ⟨hf, rfl⟩, rfl, ?_⟩
      simp only [main_after_parse, if_neg hn, if_neg hf, hb]
      rfl
    | ret tb u2 =>
      right
      refine ⟨hn, [], tb, Or.inr ⟨hf, rfl⟩, rfl, ?_⟩
      simp only [main_after_parse, if_neg hn, if_neg hf, hb, hl]
      cases env.listener_returns <;> simp [exit_status]

theorem main_of_parse_ret (env : Env) (argv : List String) (tr : List Event) (g : Globals)
    (h : parse_cli env argv (main_globals env) = .ret tr g) :
    main env argv = ⟨tr ++ (main_after_parse env g).trace, (main_after_parse env g).status⟩ := by
  simp only [main, h]

theorem main_of_parse_exit (env : Env) (argv : List String) (tr : List Event) (code : Int)
    (h : parse_cli env argv (main_globals env) = .exit tr code) :
    main env argv = ⟨tr, .exited (exit_status code)⟩ := by
  simp only [main, h]

theorem isParseCall_early (e : Event) (h : e.isParseCall = true) :
    e.isDownstream = false ∧ e.isDaemonCall = false ∧ e.isCrashReporter = false ∧
      e.isStartupStep = false := by
  cases e <;> first | exact Bool.noConfusion h | exact ⟨rfl, rfl, rfl, rfl⟩

theorem td_early (env : Env) (g : Globals) (td : List Event)
    (h : (g.foreground = 0 ∧ daemonize env = .ret td ()) ∨ (g.foreground ≠ 0 ∧ td = [])) :
    ∀ e ∈ td, e.isDownstream = false ∧ e.isCrashReporter = false := by
  rcases h with ⟨-, h⟩ | ⟨-, rfl⟩
  · have := daemonize_early env
    rw [h] at this
    exact this
  · intro e he; exact absurd he (List.not_mem_nil e)

/-- Shape of every run that calls a downstream subsystem. -/
theorem main_handoff_shape (env : Env) (argv : List String)
    (h : ∃ e ∈ (main env argv).trace, e.isDownstream = true) :
    ∃ tr g pre, parse_cli env argv (main_globals env) = .ret tr g ∧ g.nodeid ≠ 0 ∧
      (∀ e ∈ pre, e.isDownstream = false) ∧
      (main env argv).trace = pre ++
        [.fqd_config_init g.nodeid g.config_path g.queue_path,
         .fqd_start_worker_threads g.worker_threads,
         .fprintf_stderr ("Listening on port: " ++ toString g.port ++ "\n"),
         .fqd_listener g.port] ++
        (if env.listener_returns then
          [.fqd_stop_worker_threads,
           .fprintf_stderr "Listener thread could not start. Exiting.\n"]
         else []) ∧
      (main env argv).status = (if env.listener_returns then .exited 0 else .blocked) := by
  obtain ⟨e, he, hd⟩ := h
  have hp := parse_cli_trace env argv (main_globals env)
  have hpe : ∀ x ∈ (parse_cli env argv (main_globals env)).trace, x.isDownstream = false :=
    fun x hx => (isParseCall_early x (hp x hx)).1
  cases hpc : parse_cli env argv (main_globals env) with
  | exit tr code =>
    rw [main_of_parse_exit env argv tr code hpc] at he
    rw [hpc] at hpe
    have := hpe e he
    rw [hd] at this
    cases this
  | ret tr g =>
    rw [hpc] at hpe
    simp only [Step.trace] at hpe
    rw [main_of_parse_ret env argv tr g hpc] at he ⊢
    simp only at he ⊢
    rcases main_after_parse_cases env g with ⟨-, hm⟩ | ⟨-, -, td, code, hde, hm⟩ |
      ⟨-, td, tb, code, htd, hb, hm⟩ | ⟨hn, td, tb, htd, hb, hm⟩
    · rw [hm] at he
      simp only [List.mem_append, List.mem_cons, List.mem_singleton, List.not_mem_nil,
        or_false] at he
      rcases he with he | he | he
      · have := hpe e he; rw [hd] at this; cases this
      · subst he; cases hd
      · subst he; cases hd
    · have hde2 := daemonize_early env
      rw [hde] at hde2
      rw [hm] at he
      simp only [List.mem_append, List.mem_cons, List.mem_singleton, List.not_mem_nil,
        or_false] at he
      rcases he with he | (he | he) | he
      · have := hpe e he; rw [hd] at this; cases this
      · subst he; cases hd
      · subst he; cases hd
      · have := (hde2 e he).1; rw [hd] at this; cases this
    · have hb2 := bcd_startup_events env g
      rw [hb] at hb2
      rw [hm] at he
      simp only [List.mem_append, List.mem_cons, List.mem_singleton, List.not_mem_nil,
        or_false] at he
      rcases he with he | ((he | he) | he) | he
      · have := hpe e he; rw [hd] at this; cases this
      · subst he; cases hd
      · subst he; cases hd
      · have := (td_early env g td htd e he).1; rw [hd] at this; cases this
      · have := (hb2 e he).2; rw [hd] at this; cases this
    · have hb2 := bcd_startup_events env g
      rw [hb] at hb2
      refine ⟨tr, g, tr ++ ([.global_functions_init g.libexecdir, .signal_SIGPIPE_SIG_IGN] ++
        td ++ tb), rfl, hn, ?_, ?_, ?_⟩
      · intro x hx
        simp only [List.mem_append, List.mem_cons, List.mem_singleton, List.not_mem_nil,
          or_false] at hx
        rcases hx with hx | ((hx | hx) | hx) | hx
        · exact hpe x hx
        · subst hx; rfl
        · subst hx; rfl
        · exact (td_early env g td htd x hx).1
        · exact (hb2 x hx).2
      · rw [hm]
        simp only [List.append_assoc]
      · rw [hm]

theorem Step.after_nil {α : Type} (s : Step α) : s.after [] = s := by
  cases s <;> rfl

theorem Step.after_after {α : Type} (a b : List Event) (s : Step α) :
    (s.after b).after a = s.after (a ++ b) := by
  cases s <;> simp [Step.after]

theorem parse_cli_loop_cons (env : Env) (prog : String) (c : Char) (a : String)
    (rest : List (Char × String)) (g : Globals) (d : Option String) :
    parse_cli_loop env prog ((c, a) :: rest) g d =
      match parse_cli_case env prog c a g d with
      | .exit tr code => .exit tr code
      | .ret tr (g1, d1) => (parse_cli_loop env prog rest g1 d1).after tr := rfl

theorem parse_cli_loop_append (env : Env) (prog : String) (pre rest : List (Char × String)) :
    ∀ (g : Globals) (d : Option String),
      parse_cli_loop env prog (pre ++ rest) g d =
        match parse_cli_loop env prog pre g d with
        | .exit tr code => .exit tr code
        | .ret tr (g1, d1) => (parse_cli_loop env prog rest g1 d1).after tr := by
  induction pre with
  | nil => intro g d; simp [parse_cli_loop, Step.after_nil]
  | cons o pre ih =>
    obtain ⟨c, a⟩ := o
    intro g d
    rw [List.cons_append, parse_cli_loop_cons, parse_cli_loop_cons]
    cases hc : parse_cli_case env prog c a g d with
    | exit t0 code => rfl
    | ret t0 v =>
      obtain ⟨g0, d0⟩ := v
      simp only
      rw [ih g0 d0]
      cases hl : parse_cli_loop env prog pre g0 d0 with
      | exit t1 code => rfl
      | ret t1 v1 =>
        obtain ⟨g1, d1⟩ := v1
        show ((parse_cli_loop env prog rest g1 d1).after t1).after t0 =
          (parse_cli_loop env prog rest g1 d1).after (t0 ++ t1)
        exact Step.after_after t0 t1 _

/-- A `case` that exits ends the whole program with its code. -/
theorem main_of_case_exit (env : Env) (argv : List String) (pre post : List (Char × String))
    (c : Char) (a : String) (g : Globals) (d : Option String) (te : List Event) (code : Int)
    (hopts : getopt_stream env.POSIXLY_CORRECT argv = pre ++ (c, a) :: post)
    (hreach : option_processing_reaches env argv pre g d)
    (hexit : parse_cli_case env (argv.headD "") c a g d = .exit te code) :
    ∃ t, (∀ e ∈ t, e.isParseCall = true) ∧ main env argv = ⟨t ++ te, .exited (exit_status code)⟩ := by
  obtain ⟨t, ht⟩ := hreach
  have hl : parse_cli_loop env (argv.headD "") (getopt_stream env.POSIXLY_CORRECT argv)
      { main_globals env with libexecdir := some env.LIBEXECDIR } env.FQ_DEBUG =
      .exit (t ++ te) code := by
    rw [hopts, parse_cli_loop_append, ht]
    simp only [parse_cli_loop, hexit, Step.after]
  have hp : parse_cli env argv (main_globals env) = .exit (t ++ te) code := by
    simp only [parse_cli, hl]
  refine ⟨t, ?_, main_of_parse_exit env argv _ _ hp⟩
  have := parse_cli_loop_trace env (argv.headD "") pre
    { main_globals env with libexecdir := some env.LIBEXECDIR } env.FQ_DEBUG
  rw [ht] at this
  exact this

theorem get_my_ip_ne_loopback (env : Env) :
    get_my_ip env ≠ htonl env.littleEndian 0x7f000001 := by
  have h0 := htonl_loopback_ne_zero env.littleEndian
  unfold get_my_ip
  cases env.gethostbyname with
  | none => exact fun h => h0 h.symm
  | some h =>
    simp only
    by_cases h1 : h.h_addrtype = AF_INET ∧ h.h_length = 4
    · rw [if_pos h1]
      by_cases h2 : load32 env.littleEndian h.h_addr = htonl env.littleEndian 0x7f000001
      · rw [if_pos h2]; exact fun h => h0 h.symm
      · rw [if_neg h2]; exact h2
    · rw [if_neg h1]; exact fun h => h0 h.symm

/-- The variables with which `main` ends up when `parse_cli` returns, in terms
of the last occurrence of each option. -/
theorem parse_cli_globals (env : Env) (argv : List String) (tr : List Event) (g : Globals)
    (h : parse_cli env argv (main_globals env) = .ret tr g) :
    g.worker_threads = (last_optarg 't' (getopt_stream env.POSIXLY_CORRECT argv)).elim 1 atoi ∧
    g.port = (last_optarg 'p' (getopt_stream env.POSIXLY_CORRECT argv)).elim 8765 (fun a => to_ushort (atoi a)) ∧
    g.nodeid = (last_optarg 'n' (getopt_stream env.POSIXLY_CORRECT argv)).elim (get_my_ip env)
      (fun a => load32 env.littleEndian ((inet_pton4 a).getD [])) ∧
    g.foreground = (last_optarg 'D' (getopt_stream env.POSIXLY_CORRECT argv)).elim 0 (fun _ => 1) ∧
    g.config_path = (last_optarg 'c' (getopt_stream env.POSIXLY_CORRECT argv)).elim none some ∧
    g.queue_path = (last_optarg 'q' (getopt_stream env.POSIXLY_CORRECT argv)).elim none some ∧
    g.nodeid ≠ htonl env.littleEndian 0x7f000001 := by
  obtain ⟨t, d1, hl⟩ := parse_cli_ret env argv _ g tr h
  obtain ⟨r1, r2, r3, r4, r5, r6, r7, -⟩ := parse_cli_loop_ret env _ _ _ _ _ _ _ hl
  exact ⟨r1, r2, r3, r4, r5, r6, r7 (get_my_ip_ne_loopback env)⟩

/-- Every call into a downstream subsystem carries the values `parse_cli`
left in the variables. -/
theorem main_downstream_mem (env : Env) (argv : List String) (e : Event)
    (he : e ∈ (main env argv).trace) (hd : e.isDownstream = true) :
    ∃ tr g, parse_cli env argv (main_globals env) = .ret tr g ∧ g.nodeid ≠ 0 ∧
      (e = .fqd_config_init g.nodeid g.config_path g.queue_path ∨
       e = .fqd_start_worker_threads g.worker_threads ∨
       e = .fqd_listener g.port ∨ e = .fqd_stop_worker_threads) := by
  obtain ⟨tr, g, pre, hp, hn, hpre, htr, -⟩ := main_handoff_shape env argv ⟨e, he, hd⟩
  refine ⟨tr, g, hp, hn, ?_⟩
  rw [htr] at he
  simp only [List.mem_append, List.mem_cons, List.mem_singleton, List.not_mem_nil,
    or_false] at he
  rcases he with (he | he | he | he | he) | he
  · have := hpre e he; rw [hd] at this; cases this
  · exact Or.inl he
  · exact Or.inr (Or.inl he)
  · subst he; cases hd
  · exact Or.inr (Or.inr (Or.inl he))
  · split_ifs at he
    · simp only [List.mem_cons, List.mem_singleton, List.not_mem_nil, or_false] at he
      rcases he with he | he
      · exact Or.inr (Or.inr (Or.inr he))
      · subst he; cases hd
    · exact absurd he (List.not_mem_nil e)

/-! ## Worker-thread count (`-t`) -/

/-- Claim C1, as stated, fails: with `-t 0`, `-t -5` and `-t abc` the program
is not stopped; it starts the worker pool with `0`, `-5` and `0` threads and
ends with status `0`. -/
theorem worker_threads_not_rejected :
    (Event.fqd_start_worker_threads 0 ∈
        (main sample_env ["fqd", "-D", "-n", "10.0.0.5", "-t", "0"]).trace ∧
      (main sample_env ["fqd", "-D", "-n", "10.0.0.5", "-t", "0"]).status = .exited 0) ∧
    (Event.fqd_start_worker_threads (-5) ∈
        (main sample_env ["fqd", "-D", "-n", "10.0.0.5", "-t", "-5"]).trace ∧
      (main sample_env ["fqd", "-D", "-n", "10.0.0.5", "-t", "-5"]).status = .exited 0) ∧
    (Event.fqd_start_worker_threads 0 ∈
        (main sample_env ["fqd", "-D", "-n", "10.0.0.5", "-t", "abc"]).trace ∧
      (main sample_env ["fqd", "-D", "-n", "10.0.0.5", "-t", "abc"]).status = .exited 0) := by
  decide

/-- Claim C1, amended: `-t <arg>` stores `atoi (arg)` in `worker_threads`
without any check and never exits, so `0`, `-5` and `abc` give `0`, `-5` and
`0`, and `4` gives `4`; whenever `fqd_start_worker_threads` is called, its
argument is `atoi` of the argument of the last `-t`, or `1` without `-t`. -/
theorem worker_threads_from_atoi (env : Env) (argv : List String) (n : Int)
    (h : Event.fqd_start_worker_threads n ∈ (main env argv).trace) :
    n = (last_optarg 't' (getopt_stream env.POSIXLY_CORRECT argv)).elim 1 atoi ∧
    (∀ (prog arg : String) (g : Globals) (d : Option String),
      parse_cli_case env prog 't' arg g d = .ret [] ({ g with worker_threads := atoi arg }, d)) ∧
    atoi "0" = 0 ∧ atoi "-5" = -5 ∧ atoi "abc" = 0 ∧ atoi "4" = 4 := by
  refine ⟨?_, fun _ _ _ _ => rfl, by decide, by decide, by decide, by decide⟩
  obtain ⟨tr, g, hp, -, he⟩ := main_downstream_mem env argv _ h rfl
  have hg := (parse_cli_globals env argv tr g hp).1
  rcases he with he | he | he | he
  · cases he
  · simp only [Event.fqd_start_worker_threads.injEq] at he
    rw [he, hg]
  · cases he
  · cases he

/-- With `-t 4` the worker pool is started with exactly four threads, also
when `-t 4` comes after a word that is not an option. -/
theorem worker_threads_from_atoi_witness :
    (Event.fqd_start_worker_threads 4 ∈
        (main sample_env ["fqd", "-D", "-n", "10.0.0.5", "-t", "4"]).trace ∧
      (4 : Int) = (last_optarg 't' (getopt_stream sample_env.POSIXLY_CORRECT
        ["fqd", "-D", "-n", "10.0.0.5", "-t", "4"])).elim 1 atoi) ∧
    (Event.fqd_start_worker_threads 4 ∈
        (main sample_env ["fqd", "-D", "-n", "10.0.0.5", "extra", "-t", "4"]).trace ∧
      (4 : Int) = (last_optarg 't' (getopt_stream sample_env.POSIXLY_CORRECT
        ["fqd", "-D", "-n", "10.0.0.5", "extra", "-t", "4"])).elim 1 atoi) :=
  ⟨⟨by decide,
      (worker_threads_from_atoi sample_env ["fqd", "-D", "-n", "10.0.0.5", "-t", "4"] 4
        (by decide)).1⟩,
    ⟨by decide,
      (worker_threads_from_atoi sample_env ["fqd", "-D", "-n", "10.0.0.5", "extra", "-t", "4"] 4
        (by decide)).1⟩⟩

/-! ## Listening port (`-p`) -/

/-- Claim C10: the port handed to `fqd_listener` is `8765` when there is no
`-p`, and is `p` when the last `-p` carries the decimal text of a number `p`
between `1` and `65535`. -/
theorem listener_port (env : Env) (argv : List String) (q : Nat)
    (h : Event.fqd_listener q ∈ (main env argv).trace) :
    (last_optarg 'p' (getopt_stream env.POSIXLY_CORRECT argv) = none → q = 8765) ∧
    (∀ p : Nat, 1 ≤ p → p ≤ 65535 →
      last_optarg 'p' (getopt_stream env.POSIXLY_CORRECT argv) = some (toString p) → q = p) := by
  obtain ⟨tr, g, hp, -, he⟩ := main_downstream_mem env argv _ h rfl
  have hg := (parse_cli_globals env argv tr g hp).2.1
  have hq : q = g.port := by
    rcases he with he | he | he | he
    · cases he
    · cases he
    · simp only [Event.fqd_listener.injEq] at he
      exact he
    · cases he
  constructor
  · intro hnone
    rw [hq, hg, hnone]
    rfl
  · intro p _ hp2 hsome
    rw [hq, hg, hsome]
    simp only [Option.elim]
    rw [atoi_toString p (by omega)]
    simp only [to_ushort]
    omega

/-- With `-p 7000` and then, after a word that is not an option, `-p 9999`, the
listener is started on port `9999`; without `-p` it is started on `8765`. -/
theorem listener_port_witness :
    (Event.fqd_listener 9999 ∈ (main sample_env ["fqd", "-D", "-p", "7000", "-n", "10.0.0.5", "extra", "-p", "9999"]).trace ∧
      last_optarg 'p' (getopt_stream sample_env.POSIXLY_CORRECT ["fqd", "-D", "-p", "7000", "-n", "10.0.0.5", "extra", "-p", "9999"]) =
        some (toString 9999) ∧
      ((last_optarg 'p' (getopt_stream sample_env.POSIXLY_CORRECT ["fqd", "-D", "-p", "7000", "-n", "10.0.0.5", "extra", "-p", "9999"]) = none →
          9999 = 8765) ∧
        (∀ p : Nat, 1 ≤ p → p ≤ 65535 →
          last_optarg 'p' (getopt_stream sample_env.POSIXLY_CORRECT ["fqd", "-D", "-p", "7000", "-n", "10.0.0.5", "extra", "-p", "9999"]) =
            some (toString p) →
          9999 = p))) ∧
    (Event.fqd_listener 8765 ∈ (main sample_env ["fqd", "-D", "-n", "10.0.0.5"]).trace ∧
      last_optarg 'p' (getopt_stream sample_env.POSIXLY_CORRECT
        ["fqd", "-D", "-n", "10.0.0.5"]) = none ∧
      8765 = 8765) :=
  ⟨⟨by decide, by decide, listener_port sample_env ["fqd", "-D", "-p", "7000", "-n", "10.0.0.5", "extra", "-p", "9999"] 9999 (by decide)⟩,
    ⟨by decide, by decide,
      (listener_port sample_env ["fqd", "-D", "-n", "10.0.0.5"] 8765 (by decide)).1
        (by decide)⟩⟩

/-! ## Node identity at the handoff -/

/-- Claim C5: the node identity handed to `fqd_config_init` is never zero and
never the loopback address; it is the value of the last `-n`, or the resolved
host address when there is no `-n`. -/
theorem config_init_nodeid (env : Env) (argv : List String) (n : Nat) (c q : Option String)
    (h : Event.fqd_config_init n c q ∈ (main env argv).trace) :
    n ≠ 0 ∧ n ≠ htonl env.littleEndian 0x7f000001 ∧
    n = (last_optarg 'n' (getopt_stream env.POSIXLY_CORRECT argv)).elim (get_my_ip env)
      (fun a => load32 env.littleEndian ((inet_pton4 a).getD [])) := by
  obtain ⟨tr, g, hp, hn, he⟩ := main_downstream_mem env argv _ h rfl
  obtain ⟨-, -, h3, -, -, -, h7⟩ := parse_cli_globals env argv tr g hp
  have hq : n = g.nodeid := by
    rcases he with he | he | he | he
    · simp only [Event.fqd_config_init.injEq] at he
      exact he.1
    · cases he
    · cases he
    · cases he
  rw [hq]
  exact ⟨hn, h7, h3⟩

/-- A host that resolves to loopback, two `-n` options with a word that is
not an option between them: the last one is the identity handed on. -/
theorem config_init_nodeid_witness :
    Event.fqd_config_init (load32 true [10, 0, 0, 5]) none none ∈
        (main loopback_host_env ["fqd", "-D", "-n", "192.168.1.7", "extra", "-n", "10.0.0.5"]).trace ∧
      (load32 true [10, 0, 0, 5] ≠ 0 ∧
        load32 true [10, 0, 0, 5] ≠ htonl loopback_host_env.littleEndian 0x7f000001 ∧
        load32 true [10, 0, 0, 5] =
          (last_optarg 'n' (getopt_stream loopback_host_env.POSIXLY_CORRECT ["fqd", "-D", "-n", "192.168.1.7", "extra", "-n", "10.0.0.5"])).elim
            (get_my_ip loopback_host_env)
            (fun a => load32 loopback_host_env.littleEndian ((inet_pton4 a).getD []))) :=
  ⟨by decide,
    config_init_nodeid loopback_host_env ["fqd", "-D", "-n", "192.168.1.7", "extra", "-n", "10.0.0.5"] _ none none (by decide)⟩

/-! ## Order of the handoff -/

/-- Claim C9: a run that reaches `fqd_config_init` makes the downstream calls
once each and in this order, with the values `parse_cli` left in the
variables: `fqd_config_init (nodeid, config_path, queue_path)`,
`fqd_start_worker_threads (worker_threads)`, `fqd_listener (NULL, port)` and,
when the listener returns, `fqd_stop_worker_threads` and exit status `0`. -/
theorem handoff_order (env : Env) (argv : List String)
    (h : ∃ n c q, Event.fqd_config_init n c q ∈ (main env argv).trace) :
    ∃ tr g pre, parse_cli env argv (main_globals env) = .ret tr g ∧
      (∀ e ∈ pre, e.isDownstream = false) ∧
      (main env argv).trace = pre ++
        [.fqd_config_init g.nodeid g.config_path g.queue_path,
         .fqd_start_worker_threads g.worker_threads,
         .fprintf_stderr ("Listening on port: " ++ toString g.port ++ "\n"),
         .fqd_listener g.port] ++
        (if env.listener_returns then
          [.fqd_stop_worker_threads,
           .fprintf_stderr "Listener thread could not start. Exiting.\n"]
         else []) ∧
      (main env argv).status = (if env.listener_returns then .exited 0 else .blocked) := by
  obtain ⟨n, c, q, hmem⟩ := h
  obtain ⟨tr, g, pre, hp, -, hpre, htr, hst⟩ := main_handoff_shape env argv ⟨_, hmem, rfl⟩
  exact ⟨tr, g, pre, hp, hpre, htr, hst⟩

/-- The end-to-end run `-D -n 10.0.0.5 -p 7000 -t 2` reaches the handoff. -/
theorem handoff_order_witness :
    (main sample_env ["fqd", "-D", "-n", "10.0.0.5", "-p", "7000", "-t", "2"]).trace.filter
        Event.isDownstream =
      [.fqd_config_init (load32 true [10, 0, 0, 5]) none none, .fqd_start_worker_threads 2,
        .fqd_listener 7000, .fqd_stop_worker_threads] ∧
    ∃ tr g pre,
      parse_cli sample_env ["fqd", "-D", "-n", "10.0.0.5", "-p", "7000", "-t", "2"]
        (main_globals sample_env) = .ret tr g ∧
      (∀ e ∈ pre, e.isDownstream = false) ∧
      (main sample_env ["fqd", "-D", "-n", "10.0.0.5", "-p", "7000", "-t", "2"]).trace = pre ++
        [.fqd_config_init g.nodeid g.config_path g.queue_path,
         .fqd_start_worker_threads g.worker_threads,
         .fprintf_stderr ("Listening on port: " ++ toString g.port ++ "\n"),
         .fqd_listener g.port] ++
        (if sample_env.listener_returns then
          [.fqd_stop_worker_threads,
           .fprintf_stderr "Listener thread could not start. Exiting.\n"]
         else []) ∧
      (main sample_env ["fqd", "-D", "-n", "10.0.0.5", "-p", "7000", "-t", "2"]).status =
        (if sample_env.listener_returns then .exited 0 else .blocked) :=
  ⟨by decide,
    handoff_order sample_env ["fqd", "-D", "-n", "10.0.0.5", "-p", "7000", "-t", "2"]
      ⟨load32 true [10, 0, 0, 5], none, none, by decide⟩⟩

/-! ## Explicit node identity (`-n`) -/

theorem getopt_stream_n (posix : Bool) (prog s : String) :
    getopt_stream posix [prog, "-n", s] = [('n', s)] := rfl

/-- Claim C2: for octets `a.b.c.d` other than `0.0.0.0` and `127.0.0.1`, the
`-n` case does not exit and `parse_cli` given `-n a.b.c.d` returns with
`nodeid` holding the bytes `a, b, c, d` in memory order, whatever the
variables held before. -/
theorem explicit_nodeid_accepted (env : Env) (prog : String) (a b c d : Nat)
    (ha : a < 256) (hb : b < 256) (hc : c < 256) (hd : d < 256)
    (hany : ¬ (a = 0 ∧ b = 0 ∧ c = 0 ∧ d = 0))
    (hloop : ¬ (a = 127 ∧ b = 0 ∧ c = 0 ∧ d = 1)) (g : Globals) (dbg : Option String) :
    parse_cli_case env prog 'n' (dotted_quad a b c d) g dbg =
      .ret [] ({ g with nodeid := load32 env.littleEndian [a, b, c, d] }, dbg) ∧
    (∃ tr g1, parse_cli env [prog, "-n", dotted_quad a b c d] g = .ret tr g1 ∧
      g1.nodeid = load32 env.littleEndian [a, b, c, d]) ∧
    store32 env.littleEndian (load32 env.littleEndian [a, b, c, d]) = [a, b, c, d] := by
  have h0 : ¬ (load32 env.littleEndian [a, b, c, d] = 0 ∨
      load32 env.littleEndian [a, b, c, d] = htonl env.littleEndian 0x7f000001) := by
    rw [load32_eq_zero _ a b c d ha hb hc hd, load32_eq_loopback _ a b c d ha hb hc hd]
    exact not_or.mpr ⟨hany, hloop⟩
  have hcase : ∀ (g : Globals) (dbg : Option String),
      parse_cli_case env prog 'n' (dotted_quad a b c d) g dbg =
        .ret [] ({ g with nodeid := load32 env.littleEndian [a, b, c, d] }, dbg) := by
    intro g dbg
    rw [parse_cli_case_n, inet_pton4_dotted_quad a b c d ha hb hc hd]
    simp only [if_neg h0]
  refine ⟨hcase g dbg, ?_, store32_load32 _ a b c d ha hb hc hd⟩
  have hl : ∀ dv : Option String, parse_cli_loop env prog [('n', dotted_quad a b c d)]
      { g with libexecdir := some env.LIBEXECDIR } dv =
      .ret [] ({ { g with libexecdir := some env.LIBEXECDIR } with
        nodeid := load32 env.littleEndian [a, b, c, d] }, dv) := by
    intro dv
    rw [parse_cli_loop_cons, hcase]
    rfl
  have hhead : [prog, "-n", dotted_quad a b c d].headD "" = prog := rfl
  cases hdbg : env.FQ_DEBUG with
  | none =>
    refine ⟨[], ({ { g with libexecdir := some env.LIBEXECDIR } with
      nodeid := load32 env.littleEndian [a, b, c, d] } : Globals), ?_, rfl⟩
    simp only [parse_cli, getopt_stream_n, hhead, hl, hdbg]
  | some v =>
    refine ⟨[] ++ [.fq_debug_set_string v], ({ { g with libexecdir := some env.LIBEXECDIR } with
      nodeid := load32 env.littleEndian [a, b, c, d] } : Globals), ?_, rfl⟩
    simp only [parse_cli, getopt_stream_n, hhead, hl, hdbg]

/-- The address `10.0.0.5` given with `-n` on a little-endian host. -/
theorem explicit_nodeid_accepted_witness :
    (10 < 256 ∧ 0 < 256 ∧ 5 < 256) ∧
    (∃ tr g1, parse_cli sample_env ["fqd", "-n", dotted_quad 10 0 0 5] Globals.init =
        .ret tr g1 ∧ g1.nodeid = load32 sample_env.littleEndian [10, 0, 0, 5]) :=
  ⟨by decide,
    (explicit_nodeid_accepted sample_env "fqd" 10 0 0 5 (by decide) (by decide) (by decide)
      (by decide) (by decide) (by decide) Globals.init none).2.1⟩

/-- Claim C3: when option processing reaches `-n 0.0.0.0`, `-n 127.0.0.1` or
`-n <s>` with `s` refused by `inet_pton`, the program writes one of its two
messages to standard error as its last act, exits with status `255` and calls
no downstream subsystem. -/
theorem bad_nodeid_fatal (env : Env) (argv : List String) (pre post : List (Char × String))
    (s : String) (g : Globals) (d : Option String)
    (hopts : getopt_stream env.POSIXLY_CORRECT argv = pre ++ ('n', s) :: post)
    (hreach : option_processing_reaches env argv pre g d)
    (hbad : s = "0.0.0.0" ∨ s = "127.0.0.1" ∨ inet_pton4 s = none) :
    (main env argv).status = .exited 255 ∧
    (∃ t msg, (main env argv).trace = t ++ [.fprintf_stderr msg] ∧
      (msg = "Bad argument to -n, must be an IPv4 address.\n" ∨
        msg = "nodeid cannot be INADDR_ANY or loopback\n")) ∧
    (∀ e ∈ (main env argv).trace, e.isDownstream = false) := by
  have hexit : ∃ msg, parse_cli_case env (argv.headD "") 'n' s g d =
      .exit [.fprintf_stderr msg] (-1) ∧
      (msg = "Bad argument to -n, must be an IPv4 address.\n" ∨
        msg = "nodeid cannot be INADDR_ANY or loopback\n") := by
    rw [parse_cli_case_n]
    rcases hbad with rfl | rfl | hnone
    · have h1 : inet_pton4 "0.0.0.0" = some [0, 0, 0, 0] := by decide
      have h2 : load32 env.littleEndian [0, 0, 0, 0] = 0 := by cases env.littleEndian <;> rfl
      rw [h1]
      simp only [h2, true_or, if_true]
      exact ⟨_, rfl, Or.inr rfl⟩
    · have h1 : inet_pton4 "127.0.0.1" = some [127, 0, 0, 1] := by decide
      rw [h1]
      simp only [← htonl_loopback, or_true, if_true]
      exact ⟨_, rfl, Or.inr rfl⟩
    · rw [hnone]
      exact ⟨_, rfl, Or.inl rfl⟩
  obtain ⟨msg, hcase, hmsg⟩ := hexit
  obtain ⟨t, ht, hm⟩ := main_of_case_exit env argv pre post 'n' s g d _ _ hopts hreach hcase
  rw [hm]
  refine ⟨rfl, ⟨t, msg, rfl, hmsg⟩, ?_⟩
  intro e he
  simp only [List.mem_append, List.mem_singleton] at he
  rcases he with he | he
  · exact (isParseCall_early e (ht e he)).1
  · subst he; rfl

/-- The address `127.0.0.1` given with `-n` after `-D` and a `-m`, and text
that is not an address given with `-n`. -/
theorem bad_nodeid_fatal_witness :
    ((main sample_env ["fqd", "-D", "-m", "mod", "-n", "127.0.0.1", "-t", "2"]).status =
        .exited 255 ∧
      (∃ t msg, (main sample_env
          ["fqd", "-D", "-m", "mod", "-n", "127.0.0.1", "-t", "2"]).trace =
          t ++ [.fprintf_stderr msg] ∧
        (msg = "Bad argument to -n, must be an IPv4 address.\n" ∨
          msg = "nodeid cannot be INADDR_ANY or loopback\n")) ∧
      (∀ e ∈ (main sample_env ["fqd", "-D", "-m", "mod", "-n", "127.0.0.1", "-t", "2"]).trace,
        e.isDownstream = false)) ∧
    (main sample_env ["fqd", "-n", "10.0.0.256"]).status = .exited 255 :=
  ⟨bad_nodeid_fatal sample_env ["fqd", "-D", "-m", "mod", "-n", "127.0.0.1", "-t", "2"]
      [('D', ""), ('m', "mod")] [('t', "2")] "127.0.0.1"
      { main_globals sample_env with libexecdir := some sample_env.LIBEXECDIR, foreground := 1 }
      none (by decide) ⟨_, rfl⟩ (Or.inr (Or.inl rfl)),
    (bad_nodeid_fatal sample_env ["fqd", "-n", "10.0.0.256"] [] [] "10.0.0.256"
      { main_globals sample_env with libexecdir := some sample_env.LIBEXECDIR }
      none (by decide) ⟨_, rfl⟩ (Or.inr (Or.inr (by decide)))).1⟩

/-! ## Unknown host identity -/

/-- Claim C4, as stated, fails: with no `-n`, no usable host address and
`-h`, the program prints the usage, not the directive, and exits with
status `0`. -/
theorem unknown_identity_help_exits_zero :
    get_my_ip sample_env = 0 ∧
    last_optarg 'n' (getopt_stream sample_env.POSIXLY_CORRECT ["fqd", "-h"]) = none ∧
    (main sample_env ["fqd", "-h"]).status = .exited 0 ∧
    Event.fprintf_stderr "Could not determine host address, use -n <ip>\n" ∉
      (main sample_env ["fqd", "-h"]).trace := by
  decide

theorem get_my_ip_unknown (env : Env)
    (hres : env.gethostbyname = none ∨ ∃ h, env.gethostbyname = some h ∧
      (h.h_addrtype ≠ AF_INET ∨ h.h_length ≠ 4 ∨ h.h_addr = [127, 0, 0, 1])) :
    get_my_ip env = 0 := by
  unfold get_my_ip
  rcases hres with hnone | ⟨h, hsome, hh⟩
  · rw [hnone]
  · rw [hsome]
    simp only
    by_cases h1 : h.h_addrtype = AF_INET ∧ h.h_length = 4
    · rw [if_pos h1]
      rcases hh with hh | hh | hh
      · exact absurd h1.1 hh
      · exact absurd h1.2 hh
      · rw [hh, ← htonl_loopback, if_pos rfl]
    · rw [if_neg h1]

/-- Claim C4, amended: when no `-n` is given and host resolution fails, gives a
record that is not a 4-byte IPv4 record, or gives `127.0.0.1`, no run changes
the SIGPIPE disposition, daemonizes, sets up the crash reporter or calls a
downstream subsystem; and when `parse_cli` returns instead of exiting, the last
thing written is the directive to use `-n <ip>` on standard error and the exit
status is `255`. -/
theorem unknown_identity_fatal (env : Env) (argv : List String)
    (hn : last_optarg 'n' (getopt_stream env.POSIXLY_CORRECT argv) = none)
    (hres : env.gethostbyname = none ∨ ∃ h, env.gethostbyname = some h ∧
      (h.h_addrtype ≠ AF_INET ∨ h.h_length ≠ 4 ∨ h.h_addr = [127, 0, 0, 1])) :
    (∀ e ∈ (main env argv).trace, e.isStartupStep = false) ∧
    (∀ tr g, parse_cli env argv (main_globals env) = .ret tr g →
      main env argv =
        ⟨tr ++ [.global_functions_init g.libexecdir,
          .fprintf_stderr "Could not determine host address, use -n <ip>\n"], .exited 255⟩) := by
  have hip := get_my_ip_unknown env hres
  have hp := parse_cli_trace env argv (main_globals env)
  have hret : ∀ tr g, parse_cli env argv (main_globals env) = .ret tr g →
      main env argv =
        ⟨tr ++ [.global_functions_init g.libexecdir,
          .fprintf_stderr "Could not determine host address, use -n <ip>\n"], .exited 255⟩ := by
    intro tr g hpc
    have hg := (parse_cli_globals env argv tr g hpc).2.2.1
    rw [hn, hip] at hg
    have hg0 : g.nodeid = 0 := hg
    rw [main_of_parse_ret env argv tr g hpc]
    rcases main_after_parse_cases env g with ⟨-, hm⟩ | ⟨h0, -⟩ | ⟨h0, -⟩ | ⟨h0, -⟩
    · rw [hm]
    · exact absurd hg0 h0
    · exact absurd hg0 h0
    · exact absurd hg0 h0
  refine ⟨?_, hret⟩
  intro e he
  cases hpc : parse_cli env argv (main_globals env) with
  | exit tr code =>
    rw [main_of_parse_exit env argv tr code hpc] at he
    rw [hpc] at hp
    exact (isParseCall_early e (hp e he)).2.2.2
  | ret tr g =>
    rw [hret tr g hpc] at he
    rw [hpc] at hp
    simp only [List.mem_append, List.mem_cons, List.mem_singleton, List.not_mem_nil,
      or_false] at he
    rcases he with he | he | he
    · exact (isParseCall_early e (hp e he)).2.2.2
    · subst he; rfl
    · subst he; rfl

/-- A host that resolves to loopback and a command line without `-n`, with a
word that is not an option in it. -/
theorem unknown_identity_fatal_witness :
    main loopback_host_env ["fqd", "-D", "extra", "-p", "7000"] =
      ⟨[] ++ [.global_functions_init (some "/usr/local/libexec/fq"),
        .fprintf_stderr "Could not determine host address, use -n <ip>\n"], .exited 255⟩ :=
  (unknown_identity_fatal loopback_host_env
    ["fqd", "-D", "extra", "-p", "7000"] (by decide)
    (Or.inr ⟨⟨2, 4, [127, 0, 0, 1]⟩, rfl, Or.inr (Or.inr rfl)⟩)).2 []
    { Globals.init with libexecdir := some "/usr/local/libexec/fq", foreground := 1, port := 7000 }
    rfl

/-! ## Usage and help -/

/-- Claim C7, as stated, fails: for the unknown flag `-x` the calls of the
program are the thirteen `printf` calls of `usage`, so the usage text goes to
standard output and not to standard error; and with `-h` ahead of the unknown
flag the exit status is `0`. -/
theorem usage_goes_to_stdout :
    main sample_env ["fqd", "-x"] = ⟨usage "fqd", .exited 255⟩ ∧
    (∀ e ∈ (main sample_env ["fqd", "-x"]).trace,
      (match e with | .printf _ => true | _ => false) = true) ∧
    (main sample_env ["fqd", "-h", "-x"]).status = .exited 0 := by
  decide

/-- Claim C7, amended: when option processing reaches a `getopt` result
without a `case` of its own (the `?` of an unknown flag or of a missing
argument), `parse_cli` prints the usage text with `printf`, on standard
output, as the last thing the program does, and the program exits with status
`255`; when it reaches `-h` it does the same with status `0`. Before the usage
text the program has made only calls of `parse_cli`, and no run of either kind
calls a downstream subsystem. -/
theorem usage_then_exit (env : Env) (argv : List String) (pre post : List (Char × String))
    (c : Char) (a : String) (g : Globals) (d : Option String)
    (hopts : getopt_stream env.POSIXLY_CORRECT argv = pre ++ (c, a) :: post)
    (hreach : option_processing_reaches env argv pre g d)
    (hc : c = 'h' ∨ c ∉ handled) :
    (∃ t, (main env argv).trace = t ++ usage (argv.headD "") ∧
      ∀ e ∈ t, e.isParseCall = true) ∧
    (∀ e ∈ usage (argv.headD ""), ∃ text, e = .printf text) ∧
    (main env argv).status = (if c = 'h' then .exited 0 else .exited 255) ∧
    (∀ e ∈ (main env argv).trace, e.isDownstream = false) ∧
    '?' ∉ handled := by
  have hexit : parse_cli_case env (argv.headD "") c a g d =
      .exit (usage (argv.headD "")) (if c = 'h' then 0 else -1) := by
    rcases hc with rfl | hc
    · rfl
    · have hne : c ≠ 'h' := by
        rintro rfl
        exact hc (by decide)
      rw [parse_cli_case_default env _ c a g d hc, if_neg hne]
  obtain ⟨t, ht, hm⟩ := main_of_case_exit env argv pre post c a g d _ _ hopts hreach hexit
  rw [hm]
  refine ⟨⟨t, rfl, ht⟩, ?_, ?_, ?_, by decide⟩
  · intro e he
    simp only [usage, List.mem_cons, List.mem_singleton, List.not_mem_nil, or_false] at he
    rcases he with h | h | h | h | h | h | h | h | h | h | h | h | h <;> exact ⟨_, h⟩
  · by_cases hh : c = 'h'
    · simp only [hh, if_true]; rfl
    · simp only [hh, if_false]; rfl
  · intro e he
    simp only [List.mem_append] at he
    rcases he with he | he
    · exact (isParseCall_early e (ht e he)).1
    · exact (isParseCall_early e (usage_isParseCall _ e he)).1

/-- A `-t` without its argument, after a stray word and `-D`: `getopt`
answers `?` and the status is `255`; a `-h` after `-D`: the status is `0`. -/
theorem usage_then_exit_witness :
    getopt_stream sample_env.POSIXLY_CORRECT ["fqd", "extra", "-D", "-t"] =
      [('D', "")] ++ ('?', "") :: [] ∧
    (main sample_env ["fqd", "extra", "-D", "-t"]).status = .exited 255 ∧
    (∃ t, (main sample_env ["fqd", "extra", "-D", "-t"]).trace = t ++ usage "fqd" ∧
      ∀ e ∈ t, e.isParseCall = true) ∧
    (main sample_env ["fqd", "-D", "-h", "-t", "4"]).status = .exited 0 :=
  ⟨by decide,
    (usage_then_exit sample_env ["fqd", "extra", "-D", "-t"] [('D', "")] [] '?' ""
      { main_globals sample_env with libexecdir := some sample_env.LIBEXECDIR, foreground := 1 }
      none (by decide) ⟨_, rfl⟩ (Or.inr (by decide))).2.2.1,
    (usage_then_exit sample_env ["fqd", "extra", "-D", "-t"] [('D', "")] [] '?' ""
      { main_globals sample_env with libexecdir := some sample_env.LIBEXECDIR, foreground := 1 }
      none (by decide) ⟨_, rfl⟩ (Or.inr (by decide))).1,
    (usage_then_exit sample_env ["fqd", "-D", "-h", "-t", "4"] [('D', "")] [('t', "4")] 'h' ""
      { main_globals sample_env with libexecdir := some sample_env.LIBEXECDIR, foreground := 1 }
      none (by decide) ⟨_, rfl⟩ (Or.inl rfl)).2.2.1⟩

/-! ## Module loading (`-m`) -/

/-- Where the daemonization block sits in a run that got past the identity
check: after the calls of `parse_cli`, `global_functions_init` and the change
of the SIGPIPE disposition, and before everything else. -/
theorem main_daemon_shape (env : Env) (argv : List String) (tr : List Event) (g : Globals)
    (hparse : parse_cli env argv (main_globals env) = .ret tr g) (hid : g.nodeid ≠ 0) :
    (∀ e ∈ tr ++ [Event.global_functions_init g.libexecdir, .signal_SIGPIPE_SIG_IGN],
      e.isDaemonCall = false ∧ e.isCrashReporter = false ∧ e.isDownstream = false) ∧
    ((g.foreground = 0 ∧ ∃ td code, daemonize env = .exit td code ∧
        main env argv = ⟨(tr ++ [.global_functions_init g.libexecdir, .signal_SIGPIPE_SIG_IGN])
          ++ td, .exited (exit_status code)⟩) ∨
      (∃ td rest, ((g.foreground = 0 ∧ daemonize env = .ret td ()) ∨
          (g.foreground ≠ 0 ∧ td = [])) ∧
        (main env argv).trace =
          (tr ++ [.global_functions_init g.libexecdir, .signal_SIGPIPE_SIG_IGN]) ++ td ++ rest ∧
        (∀ e ∈ rest, e.isDaemonCall = false))) := by
  have hp := parse_cli_trace env argv (main_globals env)
  rw [hparse] at hp
  refine ⟨?_, ?_⟩
  · intro e he
    simp only [List.mem_append, List.mem_cons, List.mem_singleton, List.not_mem_nil,
      or_false] at he
    rcases he with he | he | he
    · have := isParseCall_early e (hp e he)
      exact ⟨this.2.1, this.2.2.1, this.1⟩
    · subst he; exact ⟨rfl, rfl, rfl⟩
    · subst he; exact ⟨rfl, rfl, rfl⟩
  · rw [main_of_parse_ret env argv tr g hparse]
    rcases main_after_parse_cases env g with ⟨h0, -⟩ | ⟨-, hf, td, code, hde, hm⟩ |
      ⟨-, td, tb, code, htd, hb, hm⟩ | ⟨-, td, tb, htd, hb, hm⟩
    · exact absurd h0 hid
    · left
      refine ⟨hf, td, code, hde, ?_⟩
      rw [hm]
      simp only [List.append_assoc]
    · right
      have hb2 := bcd_startup_events env g
      rw [hb] at hb2
      refine ⟨td, tb, htd, ?_, fun e he => (hb2 e he).1⟩
      rw [hm]
      simp only [List.append_assoc]
    · right
      have hb2 := bcd_startup_events env g
      rw [hb] at hb2
      refine ⟨td, tb ++ ([.fqd_config_init g.nodeid g.config_path g.queue_path,
           .fqd_start_worker_threads g.worker_threads,
           .fprintf_stderr ("Listening on port: " ++ toString g.port ++ "\n"),
           .fqd_listener g.port] ++
          (if env.listener_returns then
            [.fqd_stop_worker_threads,
             .fprintf_stderr "Listener thread could not start. Exiting.\n"]
           else [])), htd, ?_, ?_⟩
      · rw [hm]
        simp only [List.append_assoc]
      · intro e he
        simp only [List.mem_append, List.mem_cons, List.mem_singleton, List.not_mem_nil,
          or_false] at he
        rcases he with he | (he | he | he | he) | he
        · exact (hb2 e he).1
        · subst he; rfl
        · subst he; rfl
        · subst he; rfl
        · subst he; rfl
        · split_ifs at he
          · simp only [List.mem_cons, List.mem_singleton, List.not_mem_nil, or_false] at he
            rcases he with he | he <;> subst he <;> rfl
          · exact absurd he (List.not_mem_nil e)

/-- A run that leaves the daemonization block by `exit` ends there. -/
theorem main_daemonize_exit (env : Env) (argv : List String) (tr td : List Event) (g : Globals)
    (code : Int) (hparse : parse_cli env argv (main_globals env) = .ret tr g)
    (hid : g.nodeid ≠ 0) (hf : g.foreground = 0) (hde : daemonize env = .exit td code) :
    main env argv = ⟨startup_head tr g ++ td, .exited (exit_status code)⟩ := by
  rw [main_of_parse_ret env argv tr g hparse]
  simp only [main_after_parse, if_neg hid, if_pos hf, hde, startup_head, List.append_assoc,
    List.cons_append, List.nil_append]

/-- A run that comes out of the daemonization block goes on: what follows
starts with `bcd_config_init` or with `fqd_config_init` and has no
daemonization call. -/
theorem main_daemonize_ret (env : Env) (argv : List String) (tr td : List Event) (g : Globals)
    (hparse : parse_cli env argv (main_globals env) = .ret tr g)
    (hid : g.nodeid ≠ 0) (hf : g.foreground = 0) (hde : daemonize env = .ret td ()) :
    ∃ rest, (main env argv).trace = startup_head tr g ++ td ++ rest ∧
      (∀ e ∈ rest, e.isDaemonCall = false) ∧
      (rest.head? = some .bcd_config_init ∨
        rest.head? = some (.fqd_config_init g.nodeid g.config_path g.queue_path)) := by
  obtain ⟨-, hshape⟩ := main_daemon_shape env argv tr g hparse hid
  have hbh := bcd_startup_head env g
  rw [main_of_parse_ret env argv tr g hparse]
  rcases main_after_parse_cases env g with ⟨h0, -⟩ | ⟨-, -, td2, code, hde2, -⟩ |
    ⟨-, td2, tb, code, htd, hb, hm⟩ | ⟨-, td2, tb, htd, hb, hm⟩
  · exact absurd h0 hid
  · rw [hde] at hde2
    cases hde2
  · have htd2 : td2 = td := by
      rcases htd with ⟨-, h⟩ | ⟨h, -⟩
      · rw [hde] at h
        simp only [Step.ret.injEq, and_true] at h
        exact h.symm
      · exact absurd hf h
    subst htd2
    have hb2 := bcd_startup_events env g
    rw [hb] at hb2 hbh
    refine ⟨tb, ?_, fun e he => (hb2 e he).1, ?_⟩
    · rw [hm]
      simp only [startup_head, List.append_assoc]
    · rcases hbh with h | h
      · cases h
      · exact Or.inl h
  · have htd2 : td2 = td := by
      rcases htd with ⟨-, h⟩ | ⟨h, -⟩
      · rw [hde] at h
        simp only [Step.ret.injEq, and_true] at h
        exact h.symm
      · exact absurd hf h
    subst htd2
    have hb2 := bcd_startup_events env g
    rw [hb] at hb2 hbh
    refine ⟨tb ++ ([.fqd_config_init g.nodeid g.config_path g.queue_path,
         .fqd_start_worker_threads g.worker_threads,
         .fprintf_stderr ("Listening on port: " ++ toString g.port ++ "\n"),
         .fqd_listener g.port] ++
        (if env.listener_returns then
          [.fqd_stop_worker_threads,
           .fprintf_stderr "Listener thread could not start. Exiting.\n"]
         else [])), ?_, ?_, ?_⟩
    · rw [hm]
      simp only [startup_head, List.append_assoc]
    · intro e he
      simp only [List.mem_append, List.mem_cons, List.mem_singleton, List.not_mem_nil,
        or_false] at he
      rcases he with he | (he | he | he | he) | he
      · exact (hb2 e he).1
      · subst he; rfl
      · subst he; rfl
      · subst he; rfl
      · subst he; rfl
      · split_ifs at he
        · simp only [List.mem_cons, List.mem_singleton, List.not_mem_nil, or_false] at he
          rcases he with he | he <;> subst he <;> rfl
        · exact absurd he (List.not_mem_nil e)
    · rcases hbh with h | h
      · simp only [Step.ret.injEq, and_true] at h
        subst h
        exact Or.inr rfl
      · left
        simp only [Step.trace] at h
        cases tb with
        | nil => cases h
        | cons x xs =>
          simp only [List.head?_cons, Option.some.injEq] at h
          subst h
          rfl

/-- Claim C8: in a run that passes configuration and identity validation,
with `-D` no `open`, `dup2`, `fork` or `setsid` is called. Without `-D` the
block makes its calls in the order open, dup2 onto 0, (close,) open, dup2 onto
1, dup2 onto 2, (close,) fork, setsid, fork, after `parse_cli`,
`global_functions_init` and `signal` and before anything else. A call that
fails is the last call made: it is followed by the message of `die` and exit
status `255`. The parent of either fork exits with status `0` right after the
fork. The child of both forks has made all the calls and goes on to
`bcd_config_init` or `fqd_config_init`; only such a process makes a
crash-reporter or downstream call. -/
theorem daemonization_trace (env : Env) (argv : List String) (tr : List Event) (g : Globals)
    (hparse : parse_cli env argv (main_globals env) = .ret tr g) (hid : g.nodeid ≠ 0) :
    (∀ e ∈ startup_head tr g,
      e.isDaemonCall = false ∧ e.isCrashReporter = false ∧ e.isDownstream = false) ∧
    (daemon_steps env).filter Event.isDaemonCall = daemon_seq env ∧
    (last_optarg 'D' (getopt_stream env.POSIXLY_CORRECT argv) ≠ none →
      ∀ e ∈ (main env argv).trace, e.isDaemonCall = false) ∧
    (last_optarg 'D' (getopt_stream env.POSIXLY_CORRECT argv) = none →
      (env.open_rd < 0 → main env argv =
        ⟨startup_head tr g ++ ((daemon_steps env).take 1 ++
          [die_message env "Failed to setup stdin"]), .exited 255⟩) ∧
      (0 ≤ env.open_rd ∧ env.dup2_stdin < 0 → main env argv =
        ⟨startup_head tr g ++ ((daemon_steps env).take 2 ++
          [die_message env "Failed to setup stdin"]), .exited 255⟩) ∧
      (0 ≤ env.open_rd ∧ 0 ≤ env.dup2_stdin ∧ env.open_wr < 0 → main env argv =
        ⟨startup_head tr g ++ ((daemon_steps env).take 4 ++
          [die_message env "Failed to setup std\x7bout,err\x7d"]), .exited 255⟩) ∧
      (0 ≤ env.open_rd ∧ 0 ≤ env.dup2_stdin ∧ 0 ≤ env.open_wr ∧ env.dup2_stdout < 0 →
        main env argv =
          ⟨startup_head tr g ++ ((daemon_steps env).take 5 ++
            [die_message env "Failed to setup std\x7bout,err\x7d"]), .exited 255⟩) ∧
      (0 ≤ env.open_rd ∧ 0 ≤ env.dup2_stdin ∧ 0 ≤ env.open_wr ∧ 0 ≤ env.dup2_stdout ∧
        env.dup2_stderr < 0 → main env argv =
          ⟨startup_head tr g ++ ((daemon_steps env).take 6 ++
            [die_message env "Failed to setup std\x7bout,err\x7d"]), .exited 255⟩) ∧
      (stdio_redirected env ∧ env.fork1 < 0 → main env argv =
        ⟨startup_head tr g ++ ((daemon_steps env).take 8 ++
          [die_message env "Failed to fork"]), .exited 255⟩) ∧
      (stdio_redirected env ∧ 0 < env.fork1 → main env argv =
        ⟨startup_head tr g ++ (daemon_steps env).take 8, .exited 0⟩) ∧
      (stdio_redirected env ∧ env.fork1 = 0 ∧ env.fork2 < 0 → main env argv =
        ⟨startup_head tr g ++ ((daemon_steps env).take 10 ++
          [die_message env "Failed to fork"]), .exited 255⟩) ∧
      (stdio_redirected env ∧ env.fork1 = 0 ∧ 0 < env.fork2 → main env argv =
        ⟨startup_head tr g ++ (daemon_steps env).take 10, .exited 0⟩) ∧
      (stdio_redirected env ∧ env.fork1 = 0 ∧ env.fork2 = 0 →
        ∃ rest, (main env argv).trace = startup_head tr g ++ daemon_steps env ++ rest ∧
          (∀ e ∈ rest, e.isDaemonCall = false) ∧
          (rest.head? = some .bcd_config_init ∨
            rest.head? = some (.fqd_config_init g.nodeid g.config_path g.queue_path))) ∧
      ((∃ e ∈ (main env argv).trace, e.isCrashReporter = true ∨ e.isDownstream = true) →
        stdio_redirected env ∧ env.fork1 = 0 ∧ env.fork2 = 0)) := by
  obtain ⟨hhead, hshape⟩ := main_daemon_shape env argv tr g hparse hid
  have hfg := (parse_cli_globals env argv tr g hparse).2.2.2.1
  refine ⟨hhead, rfl, ?_, ?_⟩
  · intro hD
    have hf : g.foreground ≠ 0 := by
      rw [hfg]
      cases hl : last_optarg 'D' (getopt_stream env.POSIXLY_CORRECT argv) with
      | none => exact absurd hl hD
      | some v => simp
    rcases hshape with ⟨hf0, -⟩ | ⟨td, rest, htd, htr, hrest⟩
    · exact absurd hf0 hf
    · rcases htd with ⟨hf0, -⟩ | ⟨-, rfl⟩
      · exact absurd hf0 hf
      · intro e he
        rw [htr] at he
        simp only [List.append_nil] at he
        rcases List.mem_append.mp he with he | he
        · exact (hhead e he).1
        · exact hrest e he
  · intro hD
    have hf : g.foreground = 0 := by
      rw [hfg, hD]
      rfl
    obtain ⟨e1, e2, e3, e4, e5, e6, e7, e8, e9, e10⟩ := daemonize_eval env
    have hx := main_daemonize_exit env argv tr
    refine ⟨fun h => hx _ g _ hparse hid hf (e1 h), fun h => hx _ g _ hparse hid hf (e2 h),
      fun h => hx _ g _ hparse hid hf (e3 h), fun h => hx _ g _ hparse hid hf (e4 h),
      fun h => hx _ g _ hparse hid hf (e5 h), fun h => hx _ g _ hparse hid hf (e6 h),
      fun h => hx _ g _ hparse hid hf (e7 h), fun h => hx _ g _ hparse hid hf (e8 h),
      fun h => hx _ g _ hparse hid hf (e9 h),
      fun h => main_daemonize_ret env argv tr _ g hparse hid hf (e10 h), ?_⟩
    rintro ⟨e, he, hlate⟩
    have hearly := daemonize_early env
    have hnot : ∀ td code, daemonize env = .exit td code → False := by
      intro td code hde
      rw [hde] at hearly
      rw [hx td g code hparse hid hf hde] at he
      rcases List.mem_append.mp he with he | he
      · have := hhead e he
        rw [this.2.1, this.2.2] at hlate
        simp at hlate
      · have := hearly e he
        rw [this.1, this.2] at hlate
        simp at hlate
    unfold stdio_redirected at *
    by_contra hcon
    by_cases c1 : env.open_rd < 0
    · exact hnot _ _ (e1 c1)
    by_cases c2 : env.dup2_stdin < 0
    · exact hnot _ _ (e2 ⟨by omega, c2⟩)
    by_cases c3 : env.open_wr < 0
    · exact hnot _ _ (e3 ⟨by omega, by omega, c3⟩)
    by_cases c4 : env.dup2_stdout < 0
    · exact hnot _ _ (e4 ⟨by omega, by omega, by omega, c4⟩)
    by_cases c5 : env.dup2_stderr < 0
    · exact hnot _ _ (e5 ⟨by omega, by omega, by omega, by omega, c5⟩)
    have hio : 0 ≤ env.open_rd ∧ 0 ≤ env.dup2_stdin ∧ 0 ≤ env.open_wr ∧ 0 ≤ env.dup2_stdout ∧
        0 ≤ env.dup2_stderr := ⟨by omega, by omega, by omega, by omega, by omega⟩
    by_cases c6 : env.fork1 < 0
    · exact hnot _ _ (e6 ⟨hio, c6⟩)
    by_cases c7 : 0 < env.fork1
    · exact hnot _ _ (e7 ⟨hio, c7⟩)
    by_cases c8 : env.fork2 < 0
    · exact hnot _ _ (e8 ⟨hio, by omega, c8⟩)
    by_cases c9 : 0 < env.fork2
    · exact hnot _ _ (e9 ⟨hio, by omega, c9⟩)
    exact hcon ⟨hio, by omega, by omega⟩

/-- Three runs without `-D`, after a stray word that `getopt` steps over: one
in which every call succeeds and the process is the child of both forks, one in
which the second `open` fails, and the parent of the first `fork`. -/
theorem daemonization_trace_witness :
    (∃ rest, (main sample_env ["fqd", "extra", "-n", "10.0.0.5", "-B"]).trace =
        startup_head [] sample_globals ++ daemon_steps sample_env ++ rest ∧
      (∀ e ∈ rest, e.isDaemonCall = false) ∧
      (rest.head? = some .bcd_config_init ∨
        rest.head? = some (.fqd_config_init (load32 true [10, 0, 0, 5]) none none))) ∧
    main { sample_env with open_wr := -1 } ["fqd", "extra", "-n", "10.0.0.5", "-B"] =
      ⟨[.global_functions_init (some "/usr/local/libexec/fq"), .signal_SIGPIPE_SIG_IGN,
        .open_ "/dev/null" .O_RDONLY, .dup2 3 0, .close 3, .open_ "/dev/null" .O_WRONLY,
        .fprintf_stderr "Failed to setup std\x7bout,err\x7d: Cannot allocate memory\n"],
        .exited 255⟩ ∧
    main { sample_env with fork1 := 4711 } ["fqd", "extra", "-n", "10.0.0.5", "-B"] =
      ⟨[.global_functions_init (some "/usr/local/libexec/fq"), .signal_SIGPIPE_SIG_IGN,
        .open_ "/dev/null" .O_RDONLY, .dup2 3 0, .close 3, .open_ "/dev/null" .O_WRONLY,
        .dup2 3 1, .dup2 3 2, .close 3, .fork], .exited 0⟩ :=
  ⟨((daemonization_trace sample_env ["fqd", "extra", "-n", "10.0.0.5", "-B"] []
      sample_globals
      rfl (by decide)).2.2.2 (by decide)).2.2.2.2.2.2.2.2.2.1
      ⟨⟨by decide, by decide, by decide, by decide, by decide⟩, by decide, by decide⟩,
    ((daemonization_trace { sample_env with open_wr := -1 }
      ["fqd", "extra", "-n", "10.0.0.5", "-B"] []
      sample_globals
      rfl (by decide)).2.2.2 (by decide)).2.2.1 ⟨by decide, by decide, by decide⟩,
    ((daemonization_trace { sample_env with fork1 := 4711 }
      ["fqd", "extra", "-n", "10.0.0.5", "-B"] []
      sample_globals
      rfl (by decide)).2.2.2 (by decide)).2.2.2.2.2.2.1
      ⟨⟨by decide, by decide, by decide, by decide, by decide⟩, by decide⟩⟩

end Fqd
